import Mathlib

/-!
Verification development for the mineDrone navigation agent.

The repository contains two iterations of the `AdaptiveExplorer` class in
`src/RealTimePathfinding.js` (a knowledge-map A* navigator, called V1 below,
and a 3D voxel avoid-water navigator, called V2 below), plus the
`EnvironmentPerception` class in `src/EnvironmentPerception.js`.

Embedding conventions, used consistently below:
- JS numbers are modelled as rationals.  The voxel-key strings produced by
  `getPositionKey` / `gridKey` (of the form "x,y,z" with integer components)
  are in bijection with integer triples, so keys are modelled directly as
  integer triples.
- JS `Map` objects are modelled as insertion-ordered association lists
  (set replaces in place or appends; delete filters), JS `Set` objects as
  insertion-ordered duplicate-free lists, matching JS iteration order.
- `Date.now()` is modelled as an integer supplied by the environment
  (one value per tick, matching the per-call reads in the source).
- Float `Math.sqrt` values that flow into outputs or scores are modelled by
  an uninterpreted function `sqrtq` supplied by the environment; comparisons
  of the form `Math.sqrt d <op> c` with a nonnegative constant `c` are
  embedded exactly as `d <op> c^2` (these are equivalent over the reals and
  noted at each site).  `Math.cos` / `Math.sin` / `Math.PI` / `Math.random`
  are likewise environment-supplied uninterpreted data.
-/

namespace MineDrone

set_option maxRecDepth 200000

/-- A world position with rational (JS number) coordinates. -/
structure Pos where
  x : ℚ
  y : ℚ
  z : ℚ
deriving DecidableEq

/-- An integer voxel / grid cell, also the model of the "x,y,z" key strings. -/
structure IPos where
  x : ℤ
  y : ℤ
  z : ℤ
deriving DecidableEq

/-- `getPositionKey(pos)`: the key of the voxel containing `pos`
(source: RealTimePathfinding.js line 539). -/
def getPositionKey (p : Pos) : IPos :=
  ⟨⌊p.x⌋, ⌊p.y⌋, ⌊p.z⌋⟩

/-- `parsePositionKey(key)`: keys produced by `getPositionKey` always parse
back to the integer triple (source line 543). -/
def parsePositionKey (k : IPos) : Option Pos :=
  some ⟨(k.x : ℚ), (k.y : ℚ), (k.z : ℚ)⟩

/-- Character-list prefix test (helper for the JS `String.includes`). -/
def chPre : List Char → List Char → Bool
  | [], _ => true
  | _ :: _, [] => false
  | n :: ns, h :: hs => n = h && chPre ns hs

/-- Character-list substring test (helper for the JS `String.includes`). -/
def chSub (needle : List Char) : List Char → Bool
  | [] => needle.isEmpty
  | h :: hs => chPre needle (h :: hs) || chSub needle hs

/-- JS `s.includes(sub)`. -/
def strIncl (s sub : String) : Bool := chSub sub.data s.data

/-- JS `s.toLowerCase().includes(sub)`. -/
def lowerIncl (s sub : String) : Bool := strIncl s.toLower sub

/-! Association-list model of JS `Map` (insertion ordered). -/

/-- JS `map.get(k)` (`undefined` becomes `none`). -/
def mget {α : Type} (m : List (IPos × α)) (k : IPos) : Option α :=
  match m with
  | [] => none
  | (k', v) :: rest => if k' = k then some v else mget rest k

/-- JS `map.set(k, v)`: replace in place, else append. -/
def mset {α : Type} (m : List (IPos × α)) (k : IPos) (v : α) : List (IPos × α) :=
  match m with
  | [] => [(k, v)]
  | (k', v') :: rest => if k' = k then (k', v) :: rest else (k', v') :: mset rest k v

/-- JS `map.delete(k)`: drop the binding of `k`, keep the rest in order. -/
def mdel {α : Type} (m : List (IPos × α)) (k : IPos) : List (IPos × α) :=
  match m with
  | [] => []
  | (k', v) :: rest => if k' = k then mdel rest k else (k', v) :: mdel rest k

/-- JS `map.has(k)`. -/
def mhas {α : Type} (m : List (IPos × α)) (k : IPos) : Bool :=
  (mget m k).isSome

/-! List model of JS `Set` (insertion ordered, duplicate free). -/

/-- JS `set.add(k)`. -/
def sadd (s : List IPos) (k : IPos) : List IPos :=
  if k ∈ s then s else s ++ [k]

/-- JS `set.delete(k)`: drop `k`, keep the rest in order. -/
def sdel (s : List IPos) (k : IPos) : List IPos :=
  match s with
  | [] => []
  | k' :: rest => if k' = k then sdel rest k else k' :: sdel rest k

/-- JS `set.has(k)`. -/
def shas (s : List IPos) (k : IPos) : Bool := k ∈ s

/-- The fields of a perceived block record that the navigator reads
(`block.type` and `block.position`; the remaining record fields
`distance`, `blockId`, `metadata` are never read by the navigator). -/
structure Block where
  type : String
  position : Pos
deriving DecidableEq

namespace V1

/-! The first `AdaptiveExplorer` iteration
(src/RealTimePathfinding.js lines 1 to 879). -/

/-- A Knowledge Map entry: the stored block record (its read fields),
the merge timestamp, and the derived safety/passability flags
(source lines 87 to 92). -/
structure KEntry where
  btype : String
  bpos : Pos
  timestamp : ℤ
  safe : ℚ
  passable : Bool
deriving DecidableEq

/-- An Explored Frontier entry (source lines 631 to 634). -/
structure BEntry where
  bpos : Pos
  timestamp : ℤ
deriving DecidableEq

/-- The mutable navigator fields that the modelled methods touch.
The unused constructor fields (`currentSubTarget`, `pathQualityCache`,
fixed tuning constants) are left out; tuning constants appear as the
literal values the source gives them. -/
structure NavState where
  finalTarget : Option Pos
  plannedPath : List Pos
  pathIndex : ℕ
  lastPosition : Option Pos
  stuckCounter : ℕ
  knowledgeMap : List (IPos × KEntry)
  obstacleMap : List IPos
  safeAreas : List IPos
  exploredBoundary : List (IPos × BEntry)
  lastReplanTime : ℤ
deriving DecidableEq

/-- The constructor state (source lines 16 to 33). -/
def initState : NavState :=
  { finalTarget := none
    plannedPath := []
    pathIndex := 0
    lastPosition := none
    stuckCounter := 0
    knowledgeMap := []
    obstacleMap := []
    safeAreas := []
    exploredBoundary := []
    lastReplanTime := 0 }

/-- Squared 2D distance; the source computes
`Math.sqrt((dx)**2 + (dz)**2)` (line 553) and every comparison of it
against a constant `c` is embedded as a comparison of this value with
`c^2`. -/
def distance2Dsq (p q : Pos) : ℚ :=
  (p.x - q.x) ^ 2 + (p.z - q.z) ^ 2

/-- Squared 3D distance (used by V2, defined here for sharing). -/
def distance3Dsq (p q : Pos) : ℚ :=
  (p.x - q.x) ^ 2 + (p.y - q.y) ^ 2 + (p.z - q.z) ^ 2

/-- `evaluateBlockSafety(blockType)` (source lines 584 to 591). -/
def evaluateBlockSafety (blockType : String) : ℚ :=
  if blockType = "air" then 1
  else if lowerIncl blockType "water" then 0
  else if lowerIncl blockType "lava" then 0
  else if lowerIncl blockType "fence" then 0
  else if blockType = "grass_block" ∨ blockType = "dirt" ∨ blockType = "stone"
      ∨ blockType = "cobblestone" then 8/10
  else 1/2

/-- `isBlockPassable(block)` (source lines 593 to 597). -/
def isBlockPassable (b : Block) : Bool :=
  b.type = "air" || lowerIncl b.type "grass" || lowerIncl b.type "flower"

/-- `isBlockObstacle(block)` (source lines 599 to 604). -/
def isBlockObstacle (b : Block) : Bool :=
  b.type ≠ "air" &&
  !(lowerIncl b.type "grass") &&
  !(lowerIncl b.type "flower") &&
  (lowerIncl b.type "water" || lowerIncl b.type "fence")

/-- `isBlockSafe(blockType)` (source lines 606 to 610). -/
def isBlockSafe (blockType : String) : Bool :=
  (blockType = "grass_block" || blockType = "dirt" || blockType = "stone"
    || blockType = "cobblestone") &&
  !(lowerIncl blockType "water") &&
  !(lowerIncl blockType "fence")

/-- `cleanupKnowledgeMap(currentTime)` (source lines 612 to 627):
entries strictly older than 60000 ms are removed from the Knowledge Map
and from both derived sets.  The Explored Frontier is not touched. -/
def cleanupKnowledgeMap (currentTime : ℤ) (st : NavState) : NavState :=
  let keysToDelete :=
    (st.knowledgeMap.filter (fun kv => currentTime - kv.2.timestamp > 60000)).map
      Prod.fst
  { st with
    knowledgeMap := keysToDelete.foldl mdel st.knowledgeMap
    obstacleMap := keysToDelete.foldl sdel st.obstacleMap
    safeAreas := keysToDelete.foldl sdel st.safeAreas }

/-- `updateExploredBoundary(position)` (source lines 629 to 635). -/
def updateExploredBoundary (now : ℤ) (p : Pos) (st : NavState) : NavState :=
  { st with
    exploredBoundary :=
      mset st.exploredBoundary (getPositionKey p) ⟨p, now⟩ }

/-- The body of the per-block loop of `updateKnowledgeMap`
(source lines 85 to 120): record the entry, classify it into the obstacle
or safe partition (with the fence headroom rule), and mark the frontier. -/
def processBlock (now : ℤ) (st : NavState) (b : Block) : NavState :=
  let key := getPositionKey b.position
  let st :=
    { st with
      knowledgeMap :=
        mset st.knowledgeMap key
          ⟨b.type, b.position, now, evaluateBlockSafety b.type, isBlockPassable b⟩ }
  let st :=
    if isBlockObstacle b then
      let st :=
        { st with
          obstacleMap := sadd st.obstacleMap key
          safeAreas := sdel st.safeAreas key }
      if lowerIncl b.type "fence" then
        let abovePos : Pos := ⟨b.position.x, b.position.y + 1, b.position.z⟩
        let aboveKey := getPositionKey abovePos
        { st with
          obstacleMap := sadd st.obstacleMap aboveKey
          safeAreas := sdel st.safeAreas aboveKey
          knowledgeMap :=
            mset st.knowledgeMap aboveKey ⟨"air", abovePos, now, 0, false⟩ }
      else st
    else if isBlockSafe b.type then
      { st with
        safeAreas := sadd st.safeAreas key
        obstacleMap := sdel st.obstacleMap key }
    else st
  updateExploredBoundary now b.position st

/-- `updateKnowledgeMap()` (source lines 75 to 123), with the perception
collaborator present (in this repository the collaborator always provides
`getMemoryBlocksArray`, so the early-return guard never fires); its result
is supplied as the `blocks` argument and `Date.now()` as `now`. -/
def updateKnowledgeMap (blocks : List Block) (now : ℤ) (st : NavState) : NavState :=
  blocks.foldl (processBlock now) (cleanupKnowledgeMap now st)

/-- The external data a navigation tick reads: the perception output, the
clock, the bot entity position, and the float math library
(`Math.sqrt`, `Math.cos`, `Math.sin`, `Math.PI`, `Math.random`), the latter
modelled as uninterpreted rational-valued data. -/
structure Env where
  sqrtq : ℚ → ℚ
  cosq : ℚ → ℚ
  sinq : ℚ → ℚ
  piq : ℚ
  rnd : ℕ → ℚ
  now : ℤ
  botPos : Pos
  memoryBlocks : List Block

/-- `isPositionSafeKnowledge(position)` (source lines 472 to 522). -/
def isPositionSafeKnowledge (st : NavState) (position : Pos) : Bool :=
  let groundKey := getPositionKey ⟨position.x, position.y - 1, position.z⟩
  let bodyKey := getPositionKey position
  let headKey := getPositionKey ⟨position.x, position.y + 1, position.z⟩
  if shas st.obstacleMap bodyKey || shas st.obstacleMap headKey then false
  else if shas st.safeAreas bodyKey then true
  else
    let groundInfo := mget st.knowledgeMap groundKey
    let bodyInfo := mget st.knowledgeMap bodyKey
    let headInfo := mget st.knowledgeMap headKey
    if (match groundInfo with
        | some g => g.btype = "air" || lowerIncl g.btype "water"
        | none => false) then false
    else if (match bodyInfo with
        | some b => !b.passable
        | none => false) then false
    else if (match headInfo with
        | some h => !h.passable
        | none => false) then false
    else if (match groundInfo with
        | some g => lowerIncl g.btype "fence"
        | none => false) then false
    else true

/-- `getGroundLevelKnowledge(x, z)` (source lines 524 to 537): scan the
column from `floor(bot.y) + 5` down to `floor(bot.y) - 5` for the first
known non-air, non-water, non-fence block, returning one above it, or
`floor(bot.y)` when none is known. -/
def getGroundLevelKnowledge (env : Env) (st : NavState) (x z : ℚ) : ℤ :=
  let maxGroundY := ⌊env.botPos.y⌋
  let ys := (List.range 11).map (fun i => maxGroundY + 5 - (i : ℤ))
  match ys.find? (fun y =>
    match mget st.knowledgeMap ⟨⌊x⌋, y, ⌊z⌋⟩ with
    | some info =>
        info.btype ≠ "air" && !(lowerIncl info.btype "water")
          && !(lowerIncl info.btype "fence")
    | none => false) with
  | some y => y + 1
  | none => maxGroundY

/-- Integer square root by linear scan (kernel-reduction friendly). -/
def isqrtLoop (n : ℕ) : ℕ → ℕ → ℕ
  | c, 0 => c
  | c, fuel + 1 => if (c + 1) * (c + 1) ≤ n then isqrtLoop n (c + 1) fuel else c

/-- `⌊Real.sqrt n⌋` on naturals. -/
def isqrt (n : ℕ) : ℕ := isqrtLoop n 0 n

/-- The ceiling of `2 * Real.sqrt q` for `q ≥ 0`, computed exactly with
integer square roots (`⌊√(4q)⌋ = isqrt ⌊4q⌋`, and the ceiling differs
from the floor exactly when `4q` is not a perfect square). -/
def ceilTwoSqrt (q : ℚ) : ℕ :=
  let m := isqrt (4 * q).floor.toNat
  if (m * m : ℚ) = 4 * q then m else m + 1

/-- `isPathClearInKnowledgeMap(start, end)` (source lines 453 to 470);
`steps = Math.ceil(distance2D(start, end) * 2)` is embedded exactly via
`ceilTwoSqrt`.  When `steps = 0` (coincident endpoints) the JS loop runs
once with `t = 0/0 = NaN`; every NaN-keyed lookup misses, so the safety
check passes and the function returns true. -/
def isPathClearInKnowledgeMap (env : Env) (st : NavState) (start endP : Pos) : Bool :=
  let steps := ceilTwoSqrt (distance2Dsq start endP)
  if steps = 0 then true
  else (List.range (steps + 1)).all (fun i =>
    let t : ℚ := (i : ℚ) / (steps : ℚ)
    let cx := start.x + (endP.x - start.x) * t
    let cz := start.z + (endP.z - start.z) * t
    let cy : ℚ := (getGroundLevelKnowledge env st cx cz : ℚ)
    isPositionSafeKnowledge st ⟨cx, cy, cz⟩)

/-- `isHeightAccessible(from, to)` (source lines 579 to 582):
`|to.y - from.y| <= maxJumpHeight` with `maxJumpHeight = 1.0`. -/
def isHeightAccessible (fromP toP : Pos) : Bool :=
  |toP.y - fromP.y| ≤ 1

/-- `updatePositionTracking(currentPos)` (source lines 437 to 447);
the comparison `movement < 0.5` is embedded as `movementSq < 1/4`. -/
def updatePositionTracking (currentPos : Pos) (st : NavState) : NavState :=
  let st :=
    match st.lastPosition with
    | some lp =>
        if distance2Dsq currentPos lp < 1/4 then
          { st with stuckCounter := st.stuckCounter + 1 }
        else
          { st with stuckCounter := 0 }
    | none => st
  { st with lastPosition := some currentPos }

/-- `isStuck(currentPos)` (source lines 449 to 451):
`stuckCounter >= maxStuckCount` with `maxStuckCount = 5`; the argument is
not read. -/
def isStuck (st : NavState) (_currentPos : Pos) : Bool :=
  decide (5 ≤ st.stuckCounter)

/-! The grid search `knowledgeBasedAStar` (source lines 264 to 343). -/

/-- `worldToGrid(pos, gridSize)` (source lines 698 to 704). -/
def worldToGrid (p : Pos) (gridSize : ℚ) : IPos :=
  ⟨⌊p.x / gridSize⌋, ⌊p.y / gridSize⌋, ⌊p.z / gridSize⌋⟩

/-- `gridToWorld(gridPos, gridSize)` (source lines 706 to 712). -/
def gridToWorld (g : IPos) (gridSize : ℚ) : Pos :=
  ⟨(g.x : ℚ) * gridSize + gridSize / 2,
   (g.y : ℚ) * gridSize + gridSize / 2,
   (g.z : ℚ) * gridSize + gridSize / 2⟩

/-- `heuristic2D(a, b)` (source lines 718 to 720): the float square root of
the squared 2D grid distance. -/
def heuristic2D (env : Env) (a b : IPos) : ℚ :=
  env.sqrtq (((a.x - b.x) ^ 2 + (a.z - b.z) ^ 2 : ℤ) : ℚ)

/-- The goal test `gridDistance(current, goalGrid) < 1.5` (source line 299),
embedded exactly as `4 * squaredGridDistance < 9`. -/
def gridGoalHit (a b : IPos) : Bool :=
  decide (4 * ((a.x - b.x) ^ 2 + (a.z - b.z) ^ 2) < 9)

/-- The fixed direction table of `getKnowledgeBasedNeighbors`
(source lines 728 to 731). -/
def neighborDirections : List (ℤ × ℤ) :=
  [(1, 0), (-1, 0), (0, 1), (0, -1), (1, 1), (-1, -1), (1, -1), (-1, 1)]

/-- `getKnowledgeBasedNeighbors(gridPos, gridSize)` (source lines 726 to
742): the eight horizontal neighbors, in the order of the direction table;
the `gridSize` argument is not read. -/
def getKnowledgeBasedNeighbors (gridPos : IPos) (_gridSize : ℚ) : List IPos :=
  neighborDirections.map (fun d => ⟨gridPos.x + d.1, gridPos.y, gridPos.z + d.2⟩)

/-- `calculateMoveCost(from, to, gridSize)` (source lines 744 to 753);
note the literal diagonal cost 1.414. -/
def calculateMoveCost (fromG toG : IPos) (_gridSize : ℚ) : ℚ :=
  let dx := |toG.x - fromG.x|
  let dz := |toG.z - fromG.z|
  if dx = 1 ∧ dz = 1 then 1414/1000 else 1

/-- JS `v || Infinity` applied to a possibly-missing stored score:
`none` is the model of `Infinity`. A stored finite 0 is falsy in JS, so
`0 || Infinity` is `Infinity`. -/
def orInfM (o : Option (Option ℚ)) : Option ℚ :=
  match o with
  | some (some v) => if v = 0 then none else some v
  | some none => none
  | none => none

/-- Addition of a finite cost to an `Infinity`-extended value. -/
def addInf (o : Option ℚ) (c : ℚ) : Option ℚ :=
  o.map (fun v => v + c)

/-- `a >= b` on `Infinity`-extended values. -/
def geInf (a b : Option ℚ) : Bool :=
  match a, b with
  | none, _ => true
  | some _, none => false
  | some x, some y => x ≥ y

/-- `a <= b` on `Infinity`-extended values, as used by the open-set sort
comparator `(fA || Infinity) - (fB || Infinity)`; the comparator value
`Infinity - Infinity = NaN` is treated as 0 (equal). -/
def leInf (a b : Option ℚ) : Bool :=
  match a, b with
  | none, none => true
  | none, some _ => false
  | some _, none => true
  | some x, some y => x ≤ y

/-- Insertion step of an insertion sort. -/
def insertLe {α : Type} (le : α → α → Bool) (x : α) : List α → List α
  | [] => [x]
  | y :: ys => if le y x then y :: insertLe le x ys else x :: y :: ys

/-- Insertion sort by a boolean comparison.  (The relative order of
tied elements does not affect any theorem below.) -/
def sortLe {α : Type} (le : α → α → Bool) : List α → List α
  | [] => []
  | x :: xs => insertLe le x (sortLe le xs)

/-- The mutable data of one `knowledgeBasedAStar` run. -/
structure SearchData where
  openSet : List IPos
  cameFrom : List (IPos × IPos)
  gScore : List (IPos × Option ℚ)
  fScore : List (IPos × Option ℚ)

/-- The parent-following loop of `reconstructPath` (source lines 763 to
768), with fuel `cameFrom.length + 1`, enough for every acyclic parent
chain (parent links always form a tree in a run). -/
def reconstructChain (env : Env) (st : NavState) (cameFrom : List (IPos × IPos)) :
    ℕ → IPos → List Pos → List Pos
  | 0, _, path => path
  | fuel + 1, cur, path =>
    match mget cameFrom cur with
    | some prev =>
        let w := gridToWorld cur 1
        let w : Pos := ⟨w.x, (getGroundLevelKnowledge env st w.x w.z : ℚ), w.z⟩
        reconstructChain env st cameFrom fuel prev (w :: path)
    | none => path

/-- `reconstructPath(cameFrom, current, goal, gridSize)` (source lines 755
to 771). -/
def reconstructPath (env : Env) (st : NavState) (cameFrom : List (IPos × IPos))
    (current goal : IPos) : List Pos :=
  let gw := gridToWorld goal 1
  let goalWorld : Pos := ⟨gw.x, (getGroundLevelKnowledge env st gw.x gw.z : ℚ), gw.z⟩
  reconstructChain env st cameFrom (cameFrom.length + 1) current [goalWorld]

/-- The body of the neighbor loop (source lines 308 to 334). -/
def processNeighbor (env : Env) (st : NavState) (goalGrid : IPos)
    (closedSet : List IPos) (current : IPos) (sd : SearchData)
    (neighbor : IPos) : SearchData :=
  if shas closedSet neighbor then sd
  else
    let w := gridToWorld neighbor 1
    let worldPos : Pos := ⟨w.x, (getGroundLevelKnowledge env st w.x w.z : ℚ), w.z⟩
    if !isPositionSafeKnowledge st worldPos then sd
    else
      let moveCost := calculateMoveCost current neighbor 1
      let tentative := addInf (orInfM (mget sd.gScore current)) moveCost
      let inOpen := sd.openSet.any (fun n => n = neighbor)
      if inOpen && geInf tentative (orInfM (mget sd.gScore neighbor)) then sd
      else
        { openSet := if inOpen then sd.openSet else sd.openSet ++ [neighbor]
          cameFrom := mset sd.cameFrom neighbor current
          gScore := mset sd.gScore neighbor tentative
          fScore := mset sd.fScore neighbor
            (addInf tentative (heuristic2D env neighbor goalGrid)) }

/-- The `while (openSet.length > 0 && iterations < maxIterations)` loop of
`knowledgeBasedAStar` (source lines 287 to 339), with the iteration budget
as fuel.  Besides the source return value the loop records the list of
expanded (popped) nodes, used to state the cap-exhaustion theorem. -/
def aStarLoop (env : Env) (st : NavState) (goalGrid : IPos) :
    ℕ → SearchData → List IPos → List IPos → Option (List Pos) × List IPos
  | 0, _, _, expanded => (none, expanded)
  | fuel + 1, sd, closedSet, expanded =>
    match sortLe (fun a b =>
        leInf (orInfM (mget sd.fScore a)) (orInfM (mget sd.fScore b))) sd.openSet with
    | [] => (none, expanded)
    | current :: rest =>
      let expanded := expanded ++ [current]
      if gridGoalHit current goalGrid then
        (some (reconstructPath env st sd.cameFrom current goalGrid), expanded)
      else
        let closedSet := sadd closedSet current
        let neighbors := getKnowledgeBasedNeighbors current 1
        let sd := { sd with openSet := rest }
        let sd := neighbors.foldl (processNeighbor env st goalGrid closedSet current) sd
        aStarLoop env st goalGrid fuel sd closedSet expanded

/-- The iteration cap (source line 285). -/
def maxIterations : ℕ := 200

/-- One full `knowledgeBasedAStar(start, goal)` run (source lines 264 to
343) together with its list of expanded nodes. -/
def aStarRun (env : Env) (st : NavState) (start goal : Pos) :
    Option (List Pos) × List IPos :=
  let startGrid := worldToGrid start 1
  let goalGrid := worldToGrid goal 1
  let sd : SearchData :=
    { openSet := [startGrid]
      cameFrom := []
      gScore := [(startGrid, some 0)]
      fScore := [(startGrid, some (heuristic2D env startGrid goalGrid))] }
  aStarLoop env st goalGrid maxIterations sd [] []

/-- `knowledgeBasedAStar(start, goal)`: the source return value is the
first component of the traced run. -/
def knowledgeBasedAStar (env : Env) (st : NavState) (start goal : Pos) :
    Option (List Pos) :=
  (aStarRun env st start goal).1

/-- `getDirection2D(from, to)` (source lines 557 to 570): the unit vector,
via the float square root. -/
def getDirection2D (env : Env) (fromP toP : Pos) : ℚ × ℚ :=
  let dx := toP.x - fromP.x
  let dz := toP.z - fromP.z
  let length := env.sqrtq (dx ^ 2 + dz ^ 2)
  if length = 0 then (0, 0) else (dx / length, dz / length)

/-- `getPerpendicular2D(direction)` (source lines 572 to 577). -/
def getPerpendicular2D (d : ℚ × ℚ) : ℚ × ℚ := (-d.2, d.1)

/-- `dot2D(v1, v2)` (source lines 690 to 692). -/
def dot2D (v w : ℚ × ℚ) : ℚ := v.1 * w.1 + v.2 * w.2

/-- `hasFoundPath(currentPos)` (source lines 694 to 696): always false. -/
def hasFoundPath (_currentPos : Pos) : Bool := false

/-- `isPositionInKnownArea(position)` (source lines 637 to 652):
any Knowledge Map key within the 5 x 5 horizontal neighborhood. -/
def isPositionInKnownArea (st : NavState) (position : Pos) : Bool :=
  (List.range 5).any (fun i => (List.range 5).any (fun j =>
    let dx : ℚ := (i : ℚ) - 2
    let dz : ℚ := (j : ℚ) - 2
    mhas st.knowledgeMap
      (getPositionKey ⟨position.x + dx, position.y, position.z + dz⟩)))

/-- `adjustToGroundKnowledge(position)` (source lines 654 to 657). -/
def adjustToGroundKnowledge (env : Env) (st : NavState) (position : Pos) : Pos :=
  ⟨position.x, (getGroundLevelKnowledge env st position.x position.z : ℚ), position.z⟩

/-- `generateNearTarget(currentPos, direction)` (source lines 659 to 666):
a point a fixed 3 units along `direction`, at the current height. -/
def generateNearTarget (currentPos : Pos) (direction : ℚ × ℚ) : Pos :=
  ⟨currentPos.x + direction.1 * 3, currentPos.y, currentPos.z + direction.2 * 3⟩

/-- The offsets `-radius .. radius` of the unknown-cell count loops. -/
def offsetsList (radius : ℕ) : List ℤ :=
  (List.range (2 * radius + 1)).map (fun i => (i : ℤ) - (radius : ℤ))

/-- `countNearbyUnknownCells(position, radius)` (source lines 673 to 688). -/
def countNearbyUnknownCells (st : NavState) (position : Pos) (radius : ℕ) : ℕ :=
  ((offsetsList radius).map (fun dx =>
    ((offsetsList radius).filter (fun dz =>
      !(mhas st.knowledgeMap
        (getPositionKey ⟨position.x + (dx : ℚ), position.y, position.z + (dz : ℚ)⟩)))).length)).sum

/-- `calculateExplorationValue(position)` (source lines 668 to 671). -/
def calculateExplorationValue (st : NavState) (position : Pos) : ℚ :=
  min 1 ((countNearbyUnknownCells st position 5 : ℚ) / 20)

/-- `evaluateIntermediateTarget(currentPos, candidate, finalTarget,
direction)` (source lines 230 to 262).  The comparisons of
`distanceFromCurrent` use the float square root value, as the source does;
the rational convention `q / 0 = 0` differs from the JS `x / 0 = Infinity`
only when the agent already stands at the final target, which no theorem
below exercises. -/
def evaluateIntermediateTarget (env : Env) (st : NavState)
    (currentPos candidate finalTarget : Pos) (direction : ℚ × ℚ) : ℚ :=
  if !isPositionSafeKnowledge st candidate
      || !isHeightAccessible currentPos candidate then 0
  else
    let distanceFromCurrent := env.sqrtq (distance2Dsq currentPos candidate)
    if distanceFromCurrent < 2 ∨ distanceFromCurrent > 15 then 0
    else
      let distanceFromFinal := env.sqrtq (distance2Dsq candidate finalTarget)
      let candidateDirection := getDirection2D env currentPos candidate
      let directionAlignment := dot2D direction candidateDirection
      let pathClearness : ℚ :=
        if isPathClearInKnowledgeMap env st currentPos candidate then 1 else 3/10
      let explorationValue := calculateExplorationValue st candidate
      let progressScore :=
        max 0 (1 - distanceFromFinal / env.sqrtq (distance2Dsq currentPos finalTarget))
      let directionScore := max 0 directionAlignment
      progressScore * (4/10) + directionScore * (3/10)
        + pathClearness * (2/10) + explorationValue * (1/10)

/-- `findBestIntermediateTarget(currentPos, finalTarget)` (source lines 184
to 228): candidates from the Explored Frontier and the Safe-Area Set,
sorted by descending score (descending stable sort, as the JS
`sort((a, b) => b.score - a.score)`), with the fixed near-target fallback
when no candidate scores positively. -/
def findBestIntermediateTarget (env : Env) (st : NavState)
    (currentPos finalTarget : Pos) : Pos :=
  if isPositionInKnownArea st finalTarget then
    adjustToGroundKnowledge env st finalTarget
  else
    let direction := getDirection2D env currentPos finalTarget
    let fromKey := fun (k : IPos) =>
      match parsePositionKey k with
      | none => (none : Option (Pos × ℚ))
      | some p =>
        let pos : Pos := ⟨p.x, (getGroundLevelKnowledge env st p.x p.z : ℚ), p.z⟩
        let score := evaluateIntermediateTarget env st currentPos pos finalTarget direction
        if score > 0 then some (pos, score) else none
    let candidates :=
      (st.exploredBoundary.map Prod.fst).filterMap fromKey
        ++ st.safeAreas.filterMap fromKey
    match sortLe (fun a b => decide (b.2 ≤ a.2)) candidates with
    | [] => generateNearTarget currentPos direction
    | best :: _ => best.1

/-- `needsReplanning(currentPos)` (source lines 125 to 157);
`distance2D > forceReplanDistance (8.0)` is embedded as
`distance2Dsq > 64`, and `replanInterval = 1000`. -/
def needsReplanning (env : Env) (st : NavState) (currentPos : Pos) : Bool :=
  if env.now - st.lastReplanTime < 1000 then false
  else if isStuck st currentPos then true
  else
    let blocked :=
      if st.plannedPath.length > 0 ∧ st.pathIndex < st.plannedPath.length then
        let currentTarget := st.plannedPath.getD st.pathIndex ⟨0, 0, 0⟩
        !isPathClearInKnowledgeMap env st currentPos currentTarget
          || decide (distance2Dsq currentPos currentTarget > 64)
      else false
    if blocked then true
    else if hasFoundPath currentPos then true
    else decide (st.plannedPath.length = 0 ∨ st.pathIndex ≥ st.plannedPath.length)

/-- The inner `while (j > i + 1 && !clear)` back-off of `optimizePath`
(source lines 782 to 784), with `j` itself as fuel. -/
def shrinkJ (env : Env) (st : NavState) (path : List Pos) (i : ℕ) :
    ℕ → ℕ → ℕ
  | 0, j => j
  | fuel + 1, j =>
    if j > i + 1
        && !(isPathClearInKnowledgeMap env st (path.getD i ⟨0, 0, 0⟩)
              (path.getD j ⟨0, 0, 0⟩)) then
      shrinkJ env st path i fuel (j - 1)
    else j

/-- The outer `while (i < path.length - 1)` loop of `optimizePath`
(source lines 779 to 788); `i` strictly increases every iteration, so
`path.length` steps of fuel always suffice. -/
def optimizeLoop (env : Env) (st : NavState) (path : List Pos) :
    ℕ → ℕ → List Pos → List Pos
  | 0, _, acc => acc
  | fuel + 1, i, acc =>
    if i < path.length - 1 then
      let j0 := min (i + 3) (path.length - 1)
      let j := shrinkJ env st path i j0 j0
      optimizeLoop env st path fuel j (acc ++ [path.getD j ⟨0, 0, 0⟩])
    else acc

/-- `optimizePath(path)` (source lines 773 to 791). -/
def optimizePath (env : Env) (st : NavState) (path : List Pos) : List Pos :=
  if path.length ≤ 2 then path
  else
    match path with
    | [] => path
    | p0 :: _ => optimizeLoop env st path path.length 0 [p0]

/-- `⌊(Real.sqrt q) / 2⌋` for `q ≥ 0`, computed exactly
(`⌊√q⌋ = isqrt ⌊q⌋`, and halving commutes with the floor). -/
def floorHalfSqrt (q : ℚ) : ℕ :=
  isqrt q.floor.toNat / 2

/-- `generateExploredPath(currentPos, target)` (source lines 793 to 813);
`steps = Math.min(5, Math.floor(distance / 2))` is embedded exactly via
`floorHalfSqrt`. -/
def generateExploredPath (env : Env) (st : NavState) (currentPos target : Pos) :
    List Pos :=
  let direction := getDirection2D env currentPos target
  let steps := min 5 (floorHalfSqrt (distance2Dsq currentPos target))
  (List.range steps).foldl (fun path i =>
    let i1 : ℚ := (i : ℚ) + 1
    let sx := currentPos.x + direction.1 * i1 * 2
    let sz := currentPos.z + direction.2 * i1 * 2
    let sp : Pos := ⟨sx, (getGroundLevelKnowledge env st sx sz : ℚ), sz⟩
    if isPositionSafeKnowledge st sp then path ++ [sp] else path) [currentPos]

/-- `replanPath(currentPos)` (source lines 159 to 182).  `finalTarget` is
always set by the time `replanPath` runs (`exploreToTarget` assigns it
first), so the `getD` default is never exercised in the modelled flow. -/
def replanPath (env : Env) (st : NavState) (currentPos : Pos) : NavState :=
  let st :=
    { st with lastReplanTime := env.now, plannedPath := [], pathIndex := 0,
              stuckCounter := 0 }
  let intermediateTarget :=
    findBestIntermediateTarget env st currentPos (st.finalTarget.getD ⟨0, 0, 0⟩)
  match knowledgeBasedAStar env st currentPos intermediateTarget with
  | some path =>
    if path.length > 1 then
      { st with plannedPath := optimizePath env st path, pathIndex := 1 }
    else
      let ep := generateExploredPath env st currentPos intermediateTarget
      { st with plannedPath := ep, pathIndex := min 1 (ep.length - 1) }
  | none =>
      let ep := generateExploredPath env st currentPos intermediateTarget
      { st with plannedPath := ep, pathIndex := min 1 (ep.length - 1) }

/-- `evaluateDetourOption(currentPos, detourPoint, originalTarget)`
(source lines 815 to 824). -/
def evaluateDetourOption (env : Env) (currentPos detourPoint originalTarget : Pos) : ℚ :=
  let detourDistance := env.sqrtq (distance2Dsq currentPos detourPoint)
  let progressToTarget := env.sqrtq (distance2Dsq detourPoint originalTarget)
  let directDistance := env.sqrtq (distance2Dsq currentPos originalTarget)
  let progressScore := max 0 (1 - progressToTarget / directDistance)
  let efficiencyScore := max 0 (1 - detourDistance / 5)
  progressScore * (7/10) + efficiencyScore * (3/10)

/-- JS `array.splice(i, 0, x)`: insert at index `i`. -/
def insertAt (l : List Pos) (i : ℕ) (x : Pos) : List Pos :=
  l.take i ++ [x] ++ l.drop i

/-- `findDetourPath(currentPos, blockedTarget)` (source lines 373 to 412):
lateral detour candidates for both sides, distances 2 to `avoidanceRadius`
(5.0) and forward offsets 1 to 3, in source loop order; the best-scoring
one is spliced into the path at the cursor. -/
def findDetourPath (env : Env) (st : NavState) (currentPos blockedTarget : Pos) :
    NavState × Option Pos :=
  let direction := getDirection2D env currentPos blockedTarget
  let perpendicular := getPerpendicular2D direction
  let sides : List ℚ := [-1, 1]
  let dists : List ℚ := [2, 3, 4, 5]
  let fwds : List ℚ := [1, 2, 3]
  let detourOptions :=
    sides.flatMap (fun side =>
      dists.flatMap (fun distance =>
        fwds.filterMap (fun forward =>
          let dx := currentPos.x + direction.1 * forward + perpendicular.1 * distance * side
          let dz := currentPos.z + direction.2 * forward + perpendicular.2 * distance * side
          let dp : Pos := ⟨dx, (getGroundLevelKnowledge env st dx dz : ℚ), dz⟩
          if isPositionSafeKnowledge st dp
              && isPathClearInKnowledgeMap env st currentPos dp
              && isHeightAccessible currentPos dp then
            some (dp, evaluateDetourOption env currentPos dp blockedTarget)
          else none)))
  match sortLe (fun a b => decide (b.2 ≤ a.2)) detourOptions with
  | [] => (st, none)
  | best :: _ =>
    ({ st with plannedPath := insertAt st.plannedPath st.pathIndex best.1 },
     some best.1)

/-- `getNextStep(currentPos)` (source lines 345 to 371);
`distance2D < goalRadius (1.5)` is embedded as `distance2Dsq < 9/4`. -/
def getNextStep (env : Env) (st : NavState) (currentPos : Pos) :
    NavState × Option Pos :=
  if st.plannedPath.length > 0 ∧ st.pathIndex < st.plannedPath.length then
    let nextWaypoint := st.plannedPath.getD st.pathIndex ⟨0, 0, 0⟩
    if distance2Dsq currentPos nextWaypoint < 9/4 then
      let st := { st with pathIndex := st.pathIndex + 1 }
      if st.pathIndex < st.plannedPath.length then
        (st, some (st.plannedPath.getD st.pathIndex ⟨0, 0, 0⟩))
      else (st, none)
    else if isPathClearInKnowledgeMap env st currentPos nextWaypoint
        && isHeightAccessible currentPos nextWaypoint then
      (st, some nextWaypoint)
    else findDetourPath env st currentPos nextWaypoint
  else (st, none)

/-- The `x, z in -8 .. 8 step 2` offsets of `findNearestUnexploredArea`. -/
def stepOffsets : List ℚ := [-8, -6, -4, -2, 0, 2, 4, 6, 8]

/-- `findNearestUnexploredArea(currentPos)` (source lines 826 to 854):
best score `1 / (distance + 1)` over the scan grid, strict improvement
starting from score -1. -/
def findNearestUnexploredArea (env : Env) (st : NavState) (currentPos : Pos) :
    Option Pos :=
  ((stepOffsets.flatMap (fun x => stepOffsets.map (fun z => (x, z)))).foldl
    (fun acc xz =>
      let cx := currentPos.x + xz.1
      let cz := currentPos.z + xz.2
      let checkPos : Pos := ⟨cx, (getGroundLevelKnowledge env st cx cz : ℚ), cz⟩
      if !isPositionInKnownArea st checkPos && isPositionSafeKnowledge st checkPos then
        let distance := env.sqrtq (distance2Dsq currentPos checkPos)
        let score := 1 / (distance + 1)
        if score > acc.2 then (some checkPos, score) else acc
      else acc)
    ((none : Option Pos), (-1 : ℚ))).1

/-- `findRandomSafeMovement(currentPos)` (source lines 856 to 876):
10 attempts, each drawing two fresh `Math.random` values (indexed `2 i`
and `2 i + 1` in the stream), returning the first safe, height-accessible
target. -/
def findRandomSafeMovement (env : Env) (st : NavState) (currentPos : Pos) :
    Option Pos :=
  ((List.range 10).map (fun i =>
    let angle := env.rnd (2 * i) * env.piq * 2
    let distance := 1 + env.rnd (2 * i + 1) * 3
    let tx := currentPos.x + env.cosq angle * distance
    let tz := currentPos.z + env.sinq angle * distance
    (⟨tx, (getGroundLevelKnowledge env st tx tz : ℚ), tz⟩ : Pos))).find?
    (fun target =>
      isPositionSafeKnowledge st target && isHeightAccessible currentPos target)

/-- `exploratoryMovement(currentPos)` (source lines 414 to 435): the
fallback chain nearest-unexplored, then random safe move, then a small
random jitter (stream indices 20 and 21). -/
def exploratoryMovement (env : Env) (st : NavState) (currentPos : Pos) :
    Pos × Pos :=
  match findNearestUnexploredArea env st currentPos with
  | some t => (currentPos, t)
  | none =>
    match findRandomSafeMovement env st currentPos with
    | some t => (currentPos, t)
    | none =>
      (currentPos,
       ⟨currentPos.x + (env.rnd 20 - 1/2) * (1/2),
        currentPos.y,
        currentPos.z + (env.rnd 21 - 1/2) * (1/2)⟩)

/-- The Final Target update step of `exploreToTarget` (source lines 52 to
57): a target with no stored Final Target, or farther than 2.0 from it
(`distance2Dsq > 4`), empties the Planned Path, resets the cursor and
becomes the stored Final Target. -/
def setFinalTarget (targetPos : Pos) (st : NavState) : NavState :=
  let reset :=
    match st.finalTarget with
    | none => true
    | some ft => distance2Dsq targetPos ft > 4
  if reset then
    { st with finalTarget := some targetPos, plannedPath := [], pathIndex := 0 }
  else st

/-- The preparation pipeline of `exploreToTarget` (source lines 50 to 62):
knowledge merge, Final Target update, then conditional replanning. -/
def navPrep (env : Env) (st : NavState) (targetPos : Pos) : NavState :=
  let st := updateKnowledgeMap env.memoryBlocks env.now st
  let st := setFinalTarget targetPos st
  if needsReplanning env st env.botPos then replanPath env st env.botPos else st

/-- `exploreToTarget(targetPos)` (source lines 46 to 73): every return
path yields the pair `[currentPos, nextStep]`. -/
def exploreToTarget (env : Env) (st : NavState) (targetPos : Pos) :
    NavState × (Pos × Pos) :=
  let currentPos := env.botPos
  let st := navPrep env st targetPos
  match getNextStep env st currentPos with
  | (st', some nextStep) =>
    (updatePositionTracking currentPos st', (currentPos, nextStep))
  | (st', none) => (st', exploratoryMovement env st' currentPos)

end V1

namespace V2

/-! The second `AdaptiveExplorer` iteration
(src/RealTimePathfinding.js lines 880 to 1479): the simplified avoid-water
navigator that classifies water as impassable solid. -/

open V1 (Env distance3Dsq)

/-- The result record of `analyze3DBlock` (source lines 936 to 979);
the redundant `type` and `analysis` string fields are not read anywhere. -/
structure BlockAnalysis where
  isAir : Bool
  isSolid : Bool
  isWater : Bool
  isDangerous : Bool
  isPassable : Bool
  supportWeight : Bool
deriving DecidableEq

/-- The known-solid material table (source lines 960 to 964). -/
def knownSolids : List String :=
  ["stone", "dirt", "grass_block", "cobblestone", "sand", "gravel",
   "oak_log", "oak_planks", "oak_leaves", "birch_log", "spruce_log",
   "coal_ore", "iron_ore", "gold_ore", "diamond_ore"]

/-- `analyze3DBlock(block)` (source lines 936 to 979): water is classified
as solid and not passable. -/
def analyze3DBlock (b : Block) : BlockAnalysis :=
  let blockType := b.type.toLower
  let isW := strIncl blockType "water"
  let isA := blockType = "air" || blockType = "void_air" || blockType = "cave_air"
  let isD := strIncl blockType "lava" || strIncl blockType "fire"
    || strIncl blockType "cactus"
  let sp :=
    if isW then (true, false)
    else if isA then (false, true)
    else
      let s := knownSolids.contains blockType
      (s, !s && !isD)
  { isAir := isA, isSolid := sp.1, isWater := isW, isDangerous := isD,
    isPassable := sp.2, supportWeight := sp.1 && !isD }

/-- A stored voxel record (source lines 1243 to 1250); the stored block
object is represented by its read fields. -/
structure Voxel where
  position : Pos
  btype : String
  confidence : ℚ
  firstSeen : ℤ
  lastSeen : ℤ
  analysis : BlockAnalysis
deriving DecidableEq

/-- The mutable V2 navigator fields that the modelled methods touch
(the constructor fields `occupancyGrid`, `surfaceMap`,
`explorationFrontier`, `stuckPositions` and most statistics counters are
never read). -/
structure NavState2 where
  finalTarget : Option Pos
  plannedPath : List Pos
  pathIndex : ℕ
  lastPositionLog : List (Pos × ℤ)
  voxelMap : List (IPos × Voxel)
  safeAirSpaces : List IPos
  lastReplanTime : ℤ
  escapeAttempts : ℕ
  pathsPlanned : ℕ
deriving DecidableEq

/-- The V2 constructor state (source lines 882 to 933). -/
def initState2 : NavState2 :=
  { finalTarget := none, plannedPath := [], pathIndex := 0,
    lastPositionLog := [], voxelMap := [], safeAirSpaces := [],
    lastReplanTime := 0, escapeAttempts := 0, pathsPlanned := 0 }

/-- `getVoxelKey(position)` (source lines 1455 to 1457), with
`voxelSize = 1.0`. -/
def getVoxelKey (p : Pos) : IPos :=
  ⟨⌊p.x / 1⌋, ⌊p.y / 1⌋, ⌊p.z / 1⌋⟩

/-- `parseVoxelKey(key)` (source lines 1459 to 1467): the voxel center. -/
def parseVoxelKey (k : IPos) : Option Pos :=
  some ⟨(k.x : ℚ) * 1 + 1/2, (k.y : ℚ) * 1 + 1/2, (k.z : ℚ) * 1 + 1/2⟩

/-- `getVoxelInfo(position)` (source lines 1473 to 1476). -/
def getVoxelInfo (st : NavState2) (position : Pos) : Option Voxel :=
  mget st.voxelMap (getVoxelKey position)

/-- `isWaterPosition(position)` (source lines 1060 to 1063). -/
def isWaterPosition (st : NavState2) (position : Pos) : Bool :=
  match getVoxelInfo st position with
  | some v => v.analysis.isWater
  | none => false

/-- `isCurrentlyInWater()` (source lines 1040 to 1057): water at the body,
feet or head sample positions. -/
def isCurrentlyInWater (st : NavState2) (currentPos : Pos) : Bool :=
  isWaterPosition st currentPos
    || isWaterPosition st ⟨currentPos.x, currentPos.y - 1/2, currentPos.z⟩
    || isWaterPosition st ⟨currentPos.x, currentPos.y + 1/2, currentPos.z⟩

/-- `findNearestDryLand(currentPos)` (source lines 1093 to 1120): the
nearest safe air voxel over dry support; the comparisons
`distance < nearestDistance` and `distance > 1` of float square roots are
embedded exactly on the squared values (`none` models the initial
`Infinity`). -/
def findNearestDryLand (st : NavState2) (currentPos : Pos) : Option Pos :=
  (st.safeAirSpaces.foldl (fun acc airKey =>
    match parseVoxelKey airKey with
    | none => acc
    | some airPos =>
      let groundPos : Pos := ⟨airPos.x, airPos.y - 1, airPos.z⟩
      match getVoxelInfo st groundPos with
      | some groundVoxel =>
        if groundVoxel.analysis.supportWeight && !groundVoxel.analysis.isWater
            && !(isWaterPosition st airPos) then
          let dsq := distance3Dsq currentPos airPos
          if (match acc.2 with
              | none => true
              | some best => decide (dsq < best)) && decide (dsq > 1) then
            (some airPos, some dsq)
          else acc
        else acc
      | none => acc) ((none : Option Pos), (none : Option ℚ))).1

/-- The direction table of `findNonWaterDirection` (source lines 1125 to
1128). -/
def escapeDirections : List (ℚ × ℚ) :=
  [(1, 0), (-1, 0), (0, 1), (0, -1), (1, 1), (-1, 1), (1, -1), (-1, -1)]

/-- `findNonWaterDirection(currentPos)` (source lines 1123 to 1145): the
first not-known-water candidate over 8 directions and ranges 2 to 5. -/
def findNonWaterDirection (st : NavState2) (currentPos : Pos) : Option Pos :=
  (escapeDirections.flatMap (fun dir =>
    ([2, 3, 4, 5] : List ℚ).map (fun distance =>
      (⟨currentPos.x + dir.1 * distance, currentPos.y,
        currentPos.z + dir.2 * distance⟩ : Pos)))).find?
    (fun candidate => !(isWaterPosition st candidate))

/-- `emergencyExitWater(currentPos)` (source lines 1066 to 1090): nearest
dry land, else a non-water direction, else swim up 3. -/
def emergencyExitWater (st : NavState2) (currentPos : Pos) : Pos × Pos :=
  match findNearestDryLand st currentPos with
  | some dryLand => (currentPos, dryLand)
  | none =>
    match findNonWaterDirection st currentPos with
    | some escape => (currentPos, escape)
    | none => (currentPos, ⟨currentPos.x, currentPos.y + 3, currentPos.z⟩)

/-- `isDryLandPosition(position)` (source lines 1183 to 1198). -/
def isDryLandPosition (st : NavState2) (position : Pos) : Bool :=
  let voxel := getVoxelInfo st position
  let groundVoxel := getVoxelInfo st ⟨position.x, position.y - 1, position.z⟩
  if (match voxel with
      | some v => v.analysis.isWater || !v.analysis.isPassable
      | none => false) then false
  else
    match groundVoxel with
    | some g => g.analysis.supportWeight && !g.analysis.isWater
    | none => false

/-- `recordPosition(position)` (source lines 1280 to 1289), with
`positionLogSize = 5`. -/
def recordPosition (now : ℤ) (p : Pos) (st : NavState2) : NavState2 :=
  let log := st.lastPositionLog ++ [(p, now)]
  { st with lastPositionLog := if log.length > 5 then log.drop 1 else log }

/-- `updateSpaceClassification(voxelKey, analysis)` (source lines 1270 to
1277): only non-water air voxels are safe air spaces. -/
def updateSpaceClassification (voxelKey : IPos) (analysis : BlockAnalysis)
    (st : NavState2) : NavState2 :=
  if analysis.isAir && !analysis.isWater then
    { st with safeAirSpaces := sadd st.safeAirSpaces voxelKey }
  else
    { st with safeAirSpaces := sdel st.safeAirSpaces voxelKey }

/-- The body of the per-block loop of `update3DKnowledgeMap` (source lines
1222 to 1261): `confidence = max(0.6, 1 - distance / viewRadius)` with
`viewRadius = 16` and the float 3D distance. -/
def processVoxel (env : Env) (st : NavState2) (b : Block) : NavState2 :=
  let voxelKey := getVoxelKey b.position
  let confidence := max (6/10) (1 - env.sqrtq (distance3Dsq b.position env.botPos) / 16)
  let analysis := analyze3DBlock b
  let st :=
    match mget st.voxelMap voxelKey with
    | some v =>
      let v2 := { v with analysis := analysis, confidence := confidence,
                         lastSeen := env.now }
      { st with voxelMap := mset st.voxelMap voxelKey v2 }
    | none =>
      let v2 : Voxel := ⟨b.position, b.type, confidence, env.now, env.now, analysis⟩
      { st with voxelMap := mset st.voxelMap voxelKey v2 }
  updateSpaceClassification voxelKey analysis st

/-- `update3DKnowledgeMap()` (source lines 1201 to 1267). -/
def update3DKnowledgeMap (env : Env) (st : NavState2) : NavState2 :=
  env.memoryBlocks.foldl (processVoxel env) st

/-- `isReallyStuck()` (source lines 1292 to 1305): the average of the last
two float step lengths over the last three logged samples is below 0.3. -/
def isReallyStuck (env : Env) (st : NavState2) : Bool :=
  if st.lastPositionLog.length < 3 then false
  else
    let recent := st.lastPositionLog.drop (st.lastPositionLog.length - 3)
    let moves := (recent.zip recent.tail).map
      (fun pq => env.sqrtq (distance3Dsq pq.1.1 pq.2.1))
    let avgMovement := moves.sum / ((recent.length : ℚ) - 1)
    decide (avgMovement < 3/10)

/-- `executeEscapeManeuver(currentPos)` (source lines 1308 to 1343). -/
def executeEscapeManeuver (env : Env) (st : NavState2) (currentPos : Pos) :
    NavState2 × (Pos × Pos) :=
  let st := { st with escapeAttempts := st.escapeAttempts + 1 }
  let cands :=
    ([0, 60, 120, 180, 240, 300] : List ℚ).flatMap (fun angle =>
      ([2, 3, 4, 5] : List ℚ).map (fun distance =>
        let rad := angle * env.piq / 180
        (⟨currentPos.x + env.cosq rad * distance,
          currentPos.y + 1,
          currentPos.z + env.sinq rad * distance⟩ : Pos)))
  match cands.find? (fun c => isDryLandPosition st c) with
  | some c => ({ st with plannedPath := [], pathIndex := 0 }, (currentPos, c))
  | none => (st, (currentPos, ⟨currentPos.x, currentPos.y + 2, currentPos.z⟩))

/-- `needsReplanning(currentPos)` of V2 (source lines 1346 to 1367). -/
def needsReplanning2 (env : Env) (st : NavState2) : Bool :=
  if env.now - st.lastReplanTime < 1000 then false
  else if st.plannedPath.length = 0 ∨ st.pathIndex ≥ st.plannedPath.length then true
  else if st.pathIndex < st.plannedPath.length then
    isWaterPosition st (st.plannedPath.getD st.pathIndex ⟨0, 0, 0⟩)
  else false

/-- `getDirection3D(from, to)` (source lines 1438 to 1453). -/
def getDirection3D (env : Env) (fromP toP : Pos) : Pos :=
  let dx := toP.x - fromP.x
  let dy := toP.y - fromP.y
  let dz := toP.z - fromP.z
  let length := env.sqrtq (dx ^ 2 + dy ^ 2 + dz ^ 2)
  if length = 0 then ⟨0, 0, 0⟩ else ⟨dx / length, dy / length, dz / length⟩

/-- The `while (isWaterPosition && attempts < 8)` adjustment loop of
`replan3DPath` (source lines 1392 to 1401), with the attempt budget as
fuel; `bx, bz` are the unadjusted step coordinates and `cy` the current
height. -/
def waterAdjustLoop (env : Env) (st : NavState2) (bx bz cy : ℚ) :
    ℕ → ℕ → Pos → Pos
  | 0, _, stepPos => stepPos
  | fuel + 1, attempts, stepPos =>
    if isWaterPosition st stepPos then
      let angle := (attempts : ℚ) * 45 * env.piq / 180
      let sp : Pos := ⟨bx + env.cosq angle * 2, cy + 1, bz + env.sinq angle * 2⟩
      waterAdjustLoop env st bx bz cy fuel (attempts + 1) sp
    else stepPos

/-- `replan3DPath(currentPos)` (source lines 1370 to 1408), with
`stepDistance = 3` and `maxSteps = 4`; `finalTarget` is always set by the
time it runs in the modelled flow. -/
def replan3DPath (env : Env) (st : NavState2) (currentPos : Pos) : NavState2 :=
  let st := { st with lastReplanTime := env.now, plannedPath := [],
                      pathIndex := 0, pathsPlanned := st.pathsPlanned + 1 }
  let direction := getDirection3D env currentPos (st.finalTarget.getD ⟨0, 0, 0⟩)
  let path := ([1, 2, 3, 4] : List ℚ).foldl (fun path i =>
    let bx := currentPos.x + direction.x * 3 * i
    let bz := currentPos.z + direction.z * 3 * i
    let base : Pos := ⟨bx, currentPos.y + 1/2, bz⟩
    path ++ [waterAdjustLoop env st bx bz currentPos.y 8 0 base]) [currentPos]
  { st with plannedPath := path, pathIndex := 1 }

/-- `getNext3DStep(currentPos)` (source lines 1411 to 1428);
`distance3D < goalRadius (1.0)` is embedded as `distance3Dsq < 1`. -/
def getNext3DStep (st : NavState2) (currentPos : Pos) : NavState2 × Option Pos :=
  if st.plannedPath.length > 0 ∧ st.pathIndex < st.plannedPath.length then
    let nextWaypoint := st.plannedPath.getD st.pathIndex ⟨0, 0, 0⟩
    if distance3Dsq currentPos nextWaypoint < 1 then
      let st := { st with pathIndex := st.pathIndex + 1 }
      if st.pathIndex < st.plannedPath.length then
        (st, some (st.plannedPath.getD st.pathIndex ⟨0, 0, 0⟩))
      else (st, none)
    else (st, some nextWaypoint)
  else (st, none)

/-- `findDryLandPath(currentPos, targetPos)` (source lines 1148 to 1180). -/
def findDryLandPath (env : Env) (st : NavState2) (currentPos targetPos : Pos) :
    Pos × Pos :=
  let cands :=
    ([0, 45, 90, 135, 180, 225, 270, 315] : List ℚ).flatMap (fun angle =>
      ([3, 4, 5, 6, 7, 8] : List ℚ).map (fun distance =>
        let rad := angle * env.piq / 180
        (⟨currentPos.x + env.cosq rad * distance,
          currentPos.y,
          currentPos.z + env.sinq rad * distance⟩ : Pos)))
  match cands.find? (fun c => isDryLandPosition st c) with
  | some c => (currentPos, c)
  | none =>
    let direction := getDirection3D env currentPos targetPos
    (currentPos,
     ⟨currentPos.x + direction.x * 3, currentPos.y + 2,
      currentPos.z + direction.z * 3⟩)

/-- The Final Target update step of the V2 `exploreToTarget` (source lines
1002 to 1007): the 3D distance threshold 3.0 is embedded as
`distance3Dsq > 9`. -/
def setFinalTarget3D (targetPos : Pos) (st : NavState2) : NavState2 :=
  let reset :=
    match st.finalTarget with
    | none => true
    | some ft => distance3Dsq targetPos ft > 9
  if reset then
    { st with finalTarget := some targetPos, plannedPath := [], pathIndex := 0 }
  else st

/-- The V2 `exploreToTarget(targetPos)` (source lines 982 to 1037): the
submerged check runs first and short-circuits everything else, including
any in-progress Planned Path. -/
def exploreToTarget2 (env : Env) (st : NavState2) (targetPos : Pos) :
    NavState2 × (Pos × Pos) :=
  let currentPos := env.botPos
  if isCurrentlyInWater st currentPos then
    (st, emergencyExitWater st currentPos)
  else
    let st := recordPosition env.now currentPos st
    let st := update3DKnowledgeMap env st
    let st := setFinalTarget3D targetPos st
    if isReallyStuck env st then executeEscapeManeuver env st currentPos
    else
      let st := if needsReplanning2 env st then replan3DPath env st currentPos else st
      match getNext3DStep st currentPos with
      | (st', some nextStep) =>
        if isWaterPosition st' nextStep then
          (st', findDryLandPath env st' currentPos targetPos)
        else (st', (currentPos, nextStep))
      | (st', none) => (st', findDryLandPath env st' currentPos targetPos)

end V2

namespace Perception

/-! The `EnvironmentPerception` engine
(src/EnvironmentPerception.js). -/

/-- A world block as returned by `bot.blockAt` (only the `name` field is
read by the line-of-sight test). -/
structure WorldBlock where
  name : String
deriving DecidableEq

/-- The `visionConfig` record (source lines 17 to 24).
`maxObstructionsTolerated` is not present initially; `adjustScanParameters`
can add it via `Object.assign`, but no scanner code ever reads it. -/
structure VisionConfig where
  scanRadius : ℚ
  verticalScanRange : ℚ
  blockSampleStep : ℚ
  lineOfSightStep : ℚ
  maxBlocksToCheck : ℚ
  minDistanceCheck : ℚ
  maxObstructionsTolerated : Option ℚ
deriving DecidableEq

/-- The perception fields touched by `adjustScanParameters`. -/
structure PerceptionState where
  maxDistance : ℚ
  visionConfig : VisionConfig
deriving DecidableEq

/-- The constructor state with the default `maxDistance = 256`
(source lines 4 to 29). -/
def initPerception : PerceptionState :=
  { maxDistance := 256
    visionConfig :=
      { scanRadius := 256, verticalScanRange := 8, blockSampleStep := 1,
        lineOfSightStep := 1/2, maxBlocksToCheck := 1200,
        minDistanceCheck := 1/2, maxObstructionsTolerated := none } }

/-- A `newParams` argument of `adjustScanParameters`: the recognized
option fields, each optionally present. -/
structure ScanParams where
  scanRadius : Option ℚ
  verticalScanRange : Option ℚ
  lineOfSightStep : Option ℚ
  maxObstructionsTolerated : Option ℚ
  maxBlocksToCheck : Option ℚ
deriving DecidableEq

/-- `adjustScanParameters(newParams)` (source lines 386 to 394): the
scan-radius clamp to 128, then `Object.assign(this.visionConfig,
newParams)` copying every present field (including an uncapped
`scanRadius`, as the assign overwrites the clamped value). -/
def adjustScanParameters (p : ScanParams) (st : PerceptionState) : PerceptionState :=
  let st :=
    match p.scanRadius with
    | some r =>
      { st with maxDistance := min r 128,
                visionConfig := { st.visionConfig with scanRadius := min r 128 } }
    | none => st
  { st with visionConfig :=
    { scanRadius := p.scanRadius.getD st.visionConfig.scanRadius
      verticalScanRange := p.verticalScanRange.getD st.visionConfig.verticalScanRange
      blockSampleStep := st.visionConfig.blockSampleStep
      lineOfSightStep := p.lineOfSightStep.getD st.visionConfig.lineOfSightStep
      maxBlocksToCheck := p.maxBlocksToCheck.getD st.visionConfig.maxBlocksToCheck
      minDistanceCheck := st.visionConfig.minDistanceCheck
      maxObstructionsTolerated :=
        match p.maxObstructionsTolerated with
        | some n => some n
        | none => st.visionConfig.maxObstructionsTolerated } }

/-- The non-obstructing material fragments (source lines 186 to 191). -/
def nonObstructingBlocks : List String :=
  ["grass", "tall_grass", "dead_bush", "poppy", "dandelion",
   "wheat", "carrots", "potatoes", "beetroots", "sugar_cane",
   "vine", "web", "torch", "redstone_torch", "flower", "sapling",
   "water", "glass", "glass_pane", "ice", "leaves", "fence"]

/-- `doesRayIntersectBlockRelaxed(rayPos, blockPos, block)` (source lines
202 to 222). -/
def doesRayIntersectBlockRelaxed (rayPos : Pos) (blockPos : IPos)
    (b : WorldBlock) : Bool :=
  let margin : ℚ := 1/10
  let minX := (blockPos.x : ℚ) + margin
  let maxX := (blockPos.x : ℚ) + 1 - margin
  let minY := (blockPos.y : ℚ) + margin
  let maxY :=
    if strIncl b.name "slab" && !(strIncl b.name "double") then
      (blockPos.y : ℚ) + 1/2 - margin
    else (blockPos.y : ℚ) + 1 - margin
  let minZ := (blockPos.z : ℚ) + margin
  let maxZ := (blockPos.z : ℚ) + 1 - margin
  decide (rayPos.x ≥ minX ∧ rayPos.x ≤ maxX ∧ rayPos.y ≥ minY ∧ rayPos.y ≤ maxY
    ∧ rayPos.z ≥ minZ ∧ rayPos.z ≤ maxZ)

/-- `isBlockObstructingRelaxed(block, rayPos, blockPos)` (source lines 180
to 200): a failed lookup or air never obstructs, the allowlist never
obstructs, and solid blocks obstruct when the ray sample intersects the
margin-shrunk bounding box. -/
def isBlockObstructingRelaxed (block : Option WorldBlock) (rayPos : Pos)
    (blockPos : IPos) : Bool :=
  match block with
  | none => false
  | some b =>
    if b.name = "air" then false
    else if nonObstructingBlocks.any (fun n => strIncl b.name n) then false
    else doesRayIntersectBlockRelaxed rayPos blockPos b

/-- The `while (distance < maxDistance - 1.0)` march of
`checkLineOfSightRelaxed` (source lines 148 to 175), fuel-recursive with
the tolerance literal `maxObstructions = 2` of source line 145.  Samples
closer than 1.0 and the target cell are skipped; once the obstruction
count exceeds 2 the ray is declared blocked. -/
def losLoop (step : ℚ) (blockAt : IPos → Option WorldBlock) (direction : Pos)
    (maxDistance : ℚ) (targetBlockPos : IPos) :
    ℕ → Pos → ℚ → ℕ → Bool
  | 0, _, _, _ => true
  | fuel + 1, currentPos, distance, obstructionCount =>
    if distance < maxDistance - 1 then
      let cp : Pos := ⟨currentPos.x + direction.x * step,
                       currentPos.y + direction.y * step,
                       currentPos.z + direction.z * step⟩
      let dist := distance + step
      let blockPos : IPos := ⟨⌊cp.x⌋, ⌊cp.y⌋, ⌊cp.z⌋⟩
      if dist < 1 then
        losLoop step blockAt direction maxDistance targetBlockPos fuel cp dist
          obstructionCount
      else if blockPos = targetBlockPos then
        losLoop step blockAt direction maxDistance targetBlockPos fuel cp dist
          obstructionCount
      else if isBlockObstructingRelaxed (blockAt blockPos) cp blockPos then
        if obstructionCount + 1 > 2 then false
        else
          losLoop step blockAt direction maxDistance targetBlockPos fuel cp dist
            (obstructionCount + 1)
      else
        losLoop step blockAt direction maxDistance targetBlockPos fuel cp dist
          obstructionCount
    else true

/-- The number of obstructing samples the march of
`checkLineOfSightRelaxed` encounters (the same walk as `losLoop`, counting
instead of short-circuiting; used to state the tolerance property). -/
def losCount (step : ℚ) (blockAt : IPos → Option WorldBlock) (direction : Pos)
    (maxDistance : ℚ) (targetBlockPos : IPos) :
    ℕ → Pos → ℚ → ℕ
  | 0, _, _ => 0
  | fuel + 1, currentPos, distance =>
    if distance < maxDistance - 1 then
      let cp : Pos := ⟨currentPos.x + direction.x * step,
                       currentPos.y + direction.y * step,
                       currentPos.z + direction.z * step⟩
      let dist := distance + step
      let blockPos : IPos := ⟨⌊cp.x⌋, ⌊cp.y⌋, ⌊cp.z⌋⟩
      if dist < 1 then
        losCount step blockAt direction maxDistance targetBlockPos fuel cp dist
      else if blockPos = targetBlockPos then
        losCount step blockAt direction maxDistance targetBlockPos fuel cp dist
      else if isBlockObstructingRelaxed (blockAt blockPos) cp blockPos then
        losCount step blockAt direction maxDistance targetBlockPos fuel cp dist + 1
      else
        losCount step blockAt direction maxDistance targetBlockPos fuel cp dist
    else 0

/-- The fuel that always outlasts the march: the step count after which
`distance ≥ maxDistance - 1` closes the loop (for the positive step sizes
the configuration carries; a nonpositive step would make the source loop
diverge). -/
def losFuel (maxDistance step : ℚ) : ℕ :=
  (max 0 ((maxDistance - 1) / step)).ceil.toNat + 1

/-- `checkLineOfSightRelaxed(startPos, direction, maxDistance,
targetBlockPos)` (source lines 140 to 178).  Of the whole configuration
the march reads only `lineOfSightStep`. -/
def checkLineOfSightRelaxed (cfg : VisionConfig)
    (blockAt : IPos → Option WorldBlock) (startPos direction : Pos)
    (maxDistance : ℚ) (targetBlockPos : IPos) : Bool :=
  losLoop cfg.lineOfSightStep blockAt direction maxDistance targetBlockPos
    (losFuel maxDistance cfg.lineOfSightStep) startPos 0 0

/-- The obstruction count of a full `checkLineOfSightRelaxed` march. -/
def rayObstructionCount (cfg : VisionConfig)
    (blockAt : IPos → Option WorldBlock) (startPos direction : Pos)
    (maxDistance : ℚ) (targetBlockPos : IPos) : ℕ :=
  losCount cfg.lineOfSightStep blockAt direction maxDistance targetBlockPos
    (losFuel maxDistance cfg.lineOfSightStep) startPos 0

end Perception

/-! Auxiliary definitions used by the theorem statements and witnesses. -/

/-- The navigator states reachable from the constructor state by any
sequence of knowledge-map merges (`updateKnowledgeMap`) and evictions
(`cleanupKnowledgeMap`). -/
inductive Reachable : V1.NavState → Prop
  | init : Reachable V1.initState
  | update (blocks : List Block) (now : ℤ) {s : V1.NavState} :
      Reachable s → Reachable (V1.updateKnowledgeMap blocks now s)
  | cleanup (now : ℤ) {s : V1.NavState} :
      Reachable s → Reachable (V1.cleanupKnowledgeMap now s)

/-- Feeding a position stream tick by tick through
`updatePositionTracking`. -/
def trackFold (stream : List Pos) (st : V1.NavState) : V1.NavState :=
  stream.foldl (fun s p => V1.updatePositionTracking p s) st

/-- Every consecutive 2D step of the stream moves strictly more than the
0.5 tracking threshold (squared: `distance2Dsq > 1/4`). -/
def consecFar2D : List Pos → Bool
  | p :: q :: rest => decide (V1.distance2Dsq q p > 1/4) && consecFar2D (q :: rest)
  | _ => true

/-- Every consecutive logged 3D step moves strictly more than the 0.3
stuck threshold (squared: `distance3Dsq > 9/100`). -/
def consecFar3D : List (Pos × ℤ) → Bool
  | p :: q :: rest => decide (V1.distance3Dsq p.1 q.1 > 9/100) && consecFar3D (q :: rest)
  | _ => true

/-- The direction offsets in which `getKnowledgeBasedNeighbors` enumerates
the neighbors of a cell. -/
def neighborOffsets (g : IPos) : List (ℤ × ℤ) :=
  (V1.getKnowledgeBasedNeighbors g 1).map (fun n => (n.x - g.x, n.z - g.z))

/-- A concrete square-root table agreeing with the real square root on the
values the witness scenarios hit. -/
def sqrtTable : ℚ → ℚ := fun q =>
  if q = 400 then 20 else if q = 1521/4 then 39/2
  else if q = 9 then 3 else if q = 4 then 2
  else if q = 250000 then 500 else if q = 0 then 0 else 1

/-- A concrete tick environment for the V1 witness scenarios. -/
def envW1 : V1.Env :=
  { sqrtq := sqrtTable, cosq := fun _ => 1, sinq := fun _ => 0,
    piq := 314159/100000, rnd := fun _ => 1/2, now := 100000,
    botPos := ⟨1/2, 0, 1/2⟩, memoryBlocks := [] }

/-- A known-obstacle ring around the agent cell, plus the cell two to the
east, leaving the search and the explored-path fallback without a safe
step. -/
def ringObstacles : List IPos :=
  [⟨1, 0, 0⟩, ⟨-1, 0, 0⟩, ⟨0, 0, 1⟩, ⟨0, 0, -1⟩, ⟨1, 0, 1⟩, ⟨-1, 0, -1⟩,
   ⟨1, 0, -1⟩, ⟨-1, 0, 1⟩, ⟨2, 0, 0⟩]

/-- The V1 witness state whose Obstacle Set is the ring. -/
def blockedStateW : V1.NavState :=
  { V1.initState with obstacleMap := ringObstacles }

/-- A V1 state carrying one Explored Frontier entry of timestamp 0. -/
def staleBoundaryState : V1.NavState :=
  { V1.initState with exploredBoundary := [(⟨0, 0, 0⟩, ⟨⟨0, 0, 0⟩, 0⟩)] }

/-- A concrete tick environment for the V2 witness scenarios. -/
def envW2 : V1.Env := { envW1 with botPos := ⟨1/2, 1/2, 1/2⟩ }

/-- A V2 state knowing exactly one voxel: water at the agent cell. -/
def submergedState : V2.NavState2 :=
  { V2.initState2 with
    voxelMap := [(⟨0, 0, 0⟩,
      ⟨⟨0, 0, 0⟩, "water", 1, 0, 0, V2.analyze3DBlock ⟨"water", ⟨0, 0, 0⟩⟩⟩)] }

/-- A lookup returning stone at cell (1,0,0) and air elsewhere. -/
def blockAtStone : IPos → Option Perception.WorldBlock :=
  fun p => if p = ⟨1, 0, 0⟩ then some ⟨"stone"⟩ else some ⟨"air"⟩

/-- The scan parameters that set `maxObstructionsTolerated` to 0 and
nothing else. -/
def tolZeroParams : Perception.ScanParams := ⟨none, none, none, some 0, none⟩

/-- The configuration after `adjustScanParameters` stored a tolerance
of 0. -/
def cfgTol0 : Perception.VisionConfig :=
  (Perception.adjustScanParameters tolZeroParams Perception.initPerception).visionConfig

/-- An environment whose square-root oracle returns 0 everywhere
(a valid float-sqrt abstraction for clustered-sample scenarios). -/
def envSqrt0 : V1.Env := { envW1 with sqrtq := fun _ => 0 }

/-- An environment whose square-root oracle returns 1 everywhere
(a valid float-sqrt abstraction for far-movement scenarios). -/
def envSqrt1 : V1.Env := { envW1 with sqrtq := fun _ => 1 }

/-- A V2 state whose position log holds three clustered samples. -/
def clusterLogState : V2.NavState2 :=
  { V2.initState2 with
    lastPositionLog := [(⟨0, 0, 0⟩, 0), (⟨0, 0, 0⟩, 1), (⟨0, 0, 0⟩, 2)] }

/-- A V2 state whose position log holds three spread samples. -/
def spreadLogState : V2.NavState2 :=
  { V2.initState2 with
    lastPositionLog := [(⟨0, 0, 0⟩, 0), (⟨1, 0, 0⟩, 1), (⟨2, 0, 0⟩, 2)] }

/-! Helper lemmas about the JS set and map models. -/

theorem mem_sadd {l : List IPos} {a x : IPos} : x ∈ sadd l a ↔ x ∈ l ∨ x = a := by
  unfold sadd
  by_cases h : a ∈ l
  · simp only [if_pos h]
    exact ⟨Or.inl, fun hx => hx.elim id (fun e => e ▸ h)⟩
  · simp [if_neg h]

theorem mem_sdel {l : List IPos} {a x : IPos} : x ∈ sdel l a ↔ x ∈ l ∧ x ≠ a := by
  induction l with
  | nil => simp [sdel]
  | cons b rest ih =>
    by_cases hb : b = a
    · subst hb
      rw [sdel, if_pos rfl, ih]
      constructor
      · rintro ⟨hx, hne⟩; exact ⟨List.mem_cons_of_mem b hx, hne⟩
      · rintro ⟨hx, hne⟩
        rcases List.mem_cons.1 hx with rfl | hx
        · exact absurd rfl hne
        · exact ⟨hx, hne⟩
    · rw [sdel, if_neg hb]
      constructor
      · intro hx
        rcases List.mem_cons.1 hx with rfl | hx
        · exact ⟨List.mem_cons_self _ _, hb⟩
        · exact ⟨List.mem_cons_of_mem b (ih.1 hx).1, (ih.1 hx).2⟩
      · rintro ⟨hx, hne⟩
        rcases List.mem_cons.1 hx with rfl | hx
        · exact List.mem_cons_self x _
        · exact List.mem_cons_of_mem b (ih.2 ⟨hx, hne⟩)

theorem disj_add_del {O S : List IPos} (h : ∀ k, k ∈ O → k ∉ S) (a : IPos) :
    ∀ k, k ∈ sadd O a → k ∉ sdel S a := by
  intro k hk hk'
  rw [mem_sdel] at hk'
  rcases mem_sadd.1 hk with hO | rfl
  · exact h k hO hk'.1
  · exact hk'.2 rfl

theorem disj_del_add {O S : List IPos} (h : ∀ k, k ∈ O → k ∉ S) (a : IPos) :
    ∀ k, k ∈ sdel O a → k ∉ sadd S a := by
  intro k hk hk'
  rw [mem_sdel] at hk
  rcases mem_sadd.1 hk' with hS | rfl
  · exact h k hk.1 hS
  · exact hk.2 rfl

theorem mem_foldl_sdel {keys : List IPos} : ∀ {l : List IPos} {x : IPos},
    x ∈ keys.foldl sdel l → x ∈ l := by
  induction keys with
  | nil => intro l x h; exact h
  | cons a rest ih => intro l x h; exact (mem_sdel.1 (ih h)).1

/-! Claim C1: the Obstacle Set and the Safe-Area Set stay disjoint. -/

theorem processBlock_disj (now : ℤ) (b : Block) {st : V1.NavState}
    (h : ∀ k, k ∈ st.obstacleMap → k ∉ st.safeAreas) :
    ∀ k, k ∈ (V1.processBlock now st b).obstacleMap →
      k ∉ (V1.processBlock now st b).safeAreas := by
  unfold V1.processBlock V1.updateExploredBoundary
  by_cases h1 : V1.isBlockObstacle b
  · by_cases h2 : lowerIncl b.type "fence"
    · simp only [h1, h2, if_true]
      exact disj_add_del (disj_add_del h _) _
    · simp only [h1, h2, if_true, Bool.false_eq_true, if_false]
      exact disj_add_del h _
  · by_cases h3 : V1.isBlockSafe b.type
    · simp only [h1, h3, Bool.false_eq_true, if_false, if_true]
      exact disj_del_add h _
    · simp only [h1, h3, Bool.false_eq_true, if_false]
      exact h

theorem foldl_processBlock_disj (now : ℤ) (blocks : List Block) :
    ∀ (st : V1.NavState), (∀ k, k ∈ st.obstacleMap → k ∉ st.safeAreas) →
    ∀ k, k ∈ (blocks.foldl (V1.processBlock now) st).obstacleMap →
      k ∉ (blocks.foldl (V1.processBlock now) st).safeAreas := by
  induction blocks with
  | nil => intro st h; exact h
  | cons b rest ih => intro st h; exact ih _ (processBlock_disj now b h)

theorem cleanup_disj (t : ℤ) {st : V1.NavState}
    (h : ∀ k, k ∈ st.obstacleMap → k ∉ st.safeAreas) :
    ∀ k, k ∈ (V1.cleanupKnowledgeMap t st).obstacleMap →
      k ∉ (V1.cleanupKnowledgeMap t st).safeAreas := by
  unfold V1.cleanupKnowledgeMap
  intro k hk hk'
  exact h k (mem_foldl_sdel hk) (mem_foldl_sdel hk')

theorem update_disj (blocks : List Block) (now : ℤ) {st : V1.NavState}
    (h : ∀ k, k ∈ st.obstacleMap → k ∉ st.safeAreas) :
    ∀ k, k ∈ (V1.updateKnowledgeMap blocks now st).obstacleMap →
      k ∉ (V1.updateKnowledgeMap blocks now st).safeAreas := by
  unfold V1.updateKnowledgeMap
  exact foldl_processBlock_disj now blocks _ (cleanup_disj now h)

/-- C1: for every reachable state of the navigator produced by any
sequence of knowledge-map merges (`updateKnowledgeMap`) and evictions
(`cleanupKnowledgeMap`), no voxel position key is a member of both the
Obstacle Set (`obstacleMap`) and the Safe-Area Set (`safeAreas`) at the
same time. -/
theorem obstacle_safe_disjoint {s : V1.NavState} (h : Reachable s) :
    ∀ k : IPos, ¬(k ∈ s.obstacleMap ∧ k ∈ s.safeAreas) := by
  induction h with
  | init => intro k hk; exact absurd hk.1 (List.not_mem_nil k)
  | update blocks now _ ih =>
      intro k hk
      exact update_disj blocks now (fun k h1 h2 => ih k ⟨h1, h2⟩) k hk.1 hk.2
  | cleanup now _ ih =>
      intro k hk
      exact cleanup_disj now (fun k h1 h2 => ih k ⟨h1, h2⟩) k hk.1 hk.2

/-- Witness for C1: the disjointness instantiated at the concrete
reachable state reached by one merge of a water block. -/
theorem obstacle_safe_disjoint_witness :
    ¬((⟨0, 0, 0⟩ : IPos) ∈
        (V1.updateKnowledgeMap [⟨"water", ⟨0, 0, 0⟩⟩] 1000 V1.initState).obstacleMap ∧
      (⟨0, 0, 0⟩ : IPos) ∈
        (V1.updateKnowledgeMap [⟨"water", ⟨0, 0, 0⟩⟩] 1000 V1.initState).safeAreas) :=
  obstacle_safe_disjoint
    (Reachable.update [⟨"water", ⟨0, 0, 0⟩⟩] 1000 Reachable.init) ⟨0, 0, 0⟩

/-! Claim C2: the grid search never returns a path unless some expanded
node satisfied the goal tolerance; in particular cap exhaustion yields
null. -/

theorem aStarLoop_no_goal (env : V1.Env) (st : V1.NavState) (goalGrid : IPos) :
    ∀ (fuel : ℕ) (sd : V1.SearchData) (closed expanded : List IPos),
    (∀ n ∈ (V1.aStarLoop env st goalGrid fuel sd closed expanded).2,
        V1.gridGoalHit n goalGrid = false) →
    (V1.aStarLoop env st goalGrid fuel sd closed expanded).1 = none := by
  intro fuel
  induction fuel with
  | zero => intro sd closed expanded _; rfl
  | succ fuel ih =>
    intro sd closed expanded h
    rw [V1.aStarLoop] at h ⊢
    cases hs : V1.sortLe (fun a b =>
        V1.leInf (V1.orInfM (mget sd.fScore a)) (V1.orInfM (mget sd.fScore b))) sd.openSet with
    | nil => rfl
    | cons current rest =>
      rw [hs] at h
      by_cases hg : V1.gridGoalHit current goalGrid = true
      · have := h current (by simp [hg, List.mem_append])
        rw [hg] at this
        exact absurd this (by simp)
      · have hg' : V1.gridGoalHit current goalGrid = false := by
          simpa using hg
        simp only [hg', Bool.false_eq_true, if_false] at h ⊢
        exact ih _ _ _ h

/-- C2: for every start and goal, if the grid search
(`knowledgeBasedAStar`) terminates — by exhausting its hard iteration cap
of 200 or by emptying the open set — without having expanded a node within
the goal tolerance (grid distance below 1.5 of the goal cell), it returns
null, never an incomplete or partial path. -/
theorem astar_no_goal_returns_null (env : V1.Env) (st : V1.NavState)
    (start goal : Pos)
    (h : ∀ n ∈ (V1.aStarRun env st start goal).2,
        V1.gridGoalHit n (V1.worldToGrid goal 1) = false) :
    V1.knowledgeBasedAStar env st start goal = none := by
  unfold V1.knowledgeBasedAStar
  unfold V1.aStarRun at h ⊢
  exact aStarLoop_no_goal env st _ _ _ _ _ h

/-- Witness for C2: with the agent cell ringed by known obstacles and a
goal 500 cells away, the only expanded node is the start cell, no expanded
node meets the tolerance, and the search returns null. -/
theorem astar_no_goal_returns_null_witness :
    V1.knowledgeBasedAStar envW1 blockedStateW ⟨1/2, 0, 1/2⟩ ⟨500, 0, 1/2⟩ = none :=
  astar_no_goal_returns_null envW1 blockedStateW ⟨1/2, 0, 1/2⟩ ⟨500, 0, 1/2⟩
    (by with_unfolding_all decide)

/-! Claim C3: re-issuing a far-away Final Target resets the Planned Path
and the cursor before any planning step (`setFinalTarget` runs before
`needsReplanning` / `replanPath` inside both `exploreToTarget` pipelines by
definition). -/

/-- C3: whenever `exploreToTarget` is called with a target farther from the
previously stored Final Target than the epsilon of the source guard (2.0
in 2D for V1, so `distance2Dsq > 4`; 3.0 in 3D for V2, so
`distance3Dsq > 9`), or no Final Target is stored, the target-update step
empties the Planned Path, resets the cursor to 0 and stores the new target
as the Final Target — before the planning stage, which only runs
afterwards in `navPrep` / `exploreToTarget2`. -/
theorem final_target_reset (targetPos : Pos) (st : V1.NavState)
    (st2 : V2.NavState2)
    (h1 : match st.finalTarget with
          | none => True
          | some ft => V1.distance2Dsq targetPos ft > 4)
    (h2 : match st2.finalTarget with
          | none => True
          | some ft => V1.distance3Dsq targetPos ft > 9) :
    ((V1.setFinalTarget targetPos st).plannedPath = [] ∧
     (V1.setFinalTarget targetPos st).pathIndex = 0 ∧
     (V1.setFinalTarget targetPos st).finalTarget = some targetPos) ∧
    ((V2.setFinalTarget3D targetPos st2).plannedPath = [] ∧
     (V2.setFinalTarget3D targetPos st2).pathIndex = 0 ∧
     (V2.setFinalTarget3D targetPos st2).finalTarget = some targetPos) := by
  constructor
  · unfold V1.setFinalTarget
    cases hft : st.finalTarget with
    | none => simp
    | some ft =>
        rw [hft] at h1
        have h1' : 4 < V1.distance2Dsq targetPos ft := h1
        simp [h1']
  · unfold V2.setFinalTarget3D
    cases hft : st2.finalTarget with
    | none => simp
    | some ft =>
        rw [hft] at h2
        have h2' : 9 < V1.distance3Dsq targetPos ft := h2
        simp [h2']

/-- Witness for C3: the reset at concrete states carrying a stored Final
Target farther than the epsilon from the new target. -/
theorem final_target_reset_witness :
    ((V1.setFinalTarget ⟨9, 9, 9⟩
        ({ V1.initState with finalTarget := some ⟨0, 0, 0⟩,
                             plannedPath := [⟨1, 1, 1⟩], pathIndex := 1 })).plannedPath = [] ∧
     (V1.setFinalTarget ⟨9, 9, 9⟩
        ({ V1.initState with finalTarget := some ⟨0, 0, 0⟩,
                             plannedPath := [⟨1, 1, 1⟩], pathIndex := 1 })).pathIndex = 0 ∧
     (V1.setFinalTarget ⟨9, 9, 9⟩
        ({ V1.initState with finalTarget := some ⟨0, 0, 0⟩,
                             plannedPath := [⟨1, 1, 1⟩], pathIndex := 1 })).finalTarget =
       some ⟨9, 9, 9⟩) ∧
    ((V2.setFinalTarget3D ⟨9, 9, 9⟩ V2.initState2).plannedPath = [] ∧
     (V2.setFinalTarget3D ⟨9, 9, 9⟩ V2.initState2).pathIndex = 0 ∧
     (V2.setFinalTarget3D ⟨9, 9, 9⟩ V2.initState2).finalTarget = some ⟨9, 9, 9⟩) :=
  final_target_reset ⟨9, 9, 9⟩
    ({ V1.initState with finalTarget := some ⟨0, 0, 0⟩,
                         plannedPath := [⟨1, 1, 1⟩], pathIndex := 1 })
    V2.initState2 (by with_unfolding_all decide) trivial

/-! Claim C4: what a merge call evicts.  The Knowledge Map and both
derived sets are purged of stale entries, but the Explored Frontier is
never purged — the claim fails on the frontier part. -/

theorem mget_mdel {α : Type} (m : List (IPos × α)) (a k : IPos) :
    mget (mdel m a) k = if k = a then none else mget m k := by
  induction m with
  | nil =>
    rw [mdel, mget]
    split <;> rfl
  | cons kv rest ih =>
    obtain ⟨k', v⟩ := kv
    by_cases hka : k' = a
    · subst hka
      by_cases hk : k = k'
      · subst hk
        rw [mdel, if_pos rfl, ih, if_pos rfl, if_pos rfl]
      · rw [mdel, if_pos rfl, ih, if_neg hk, if_neg hk, mget,
          if_neg (fun h => hk h.symm)]
    · by_cases hkk : k' = k
      · subst hkk
        rw [mdel, if_neg hka, mget, if_pos rfl, if_neg hka, mget, if_pos rfl]
      · rw [mdel, if_neg hka, mget, if_neg hkk, ih]
        by_cases hk : k = a
        · rw [if_pos hk, if_pos hk]
        · rw [if_neg hk, if_neg hk, mget, if_neg hkk]

theorem mget_none_foldl_mdel {keys : List IPos} :
    ∀ {m : List (IPos × V1.KEntry)} {k : IPos}, mget m k = none →
      mget (keys.foldl mdel m) k = none := by
  induction keys with
  | nil => intro m k h; exact h
  | cons a rest ih =>
    intro m k h
    exact ih (by rw [mget_mdel]; split <;> simp [h])

theorem mget_foldl_mdel_mem {keys : List IPos} :
    ∀ {m : List (IPos × V1.KEntry)} {k : IPos}, k ∈ keys →
      mget (keys.foldl mdel m) k = none := by
  induction keys with
  | nil => intro m k h; exact absurd h (List.not_mem_nil k)
  | cons a rest ih =>
    intro m k h
    rcases List.mem_cons.1 h with rfl | h
    · rw [List.foldl_cons]
      exact mget_none_foldl_mdel (by rw [mget_mdel]; simp)
    · rw [List.foldl_cons]
      exact ih h

theorem mget_foldl_mdel_not_mem {keys : List IPos} :
    ∀ {m : List (IPos × V1.KEntry)} {k : IPos}, k ∉ keys →
      mget (keys.foldl mdel m) k = mget m k := by
  induction keys with
  | nil => intro m k _; rfl
  | cons a rest ih =>
    intro m k h
    rw [List.foldl_cons, ih (fun hm => h (List.mem_cons_of_mem a hm)), mget_mdel,
      if_neg (fun he : k = a => h (by rw [he]; exact List.mem_cons_self a rest))]

theorem mget_mem {α : Type} {m : List (IPos × α)} {k : IPos} {e : α}
    (h : mget m k = some e) : (k, e) ∈ m := by
  induction m with
  | nil => exact absurd h (by rw [mget]; exact Option.noConfusion)
  | cons kv rest ih =>
    obtain ⟨k', v⟩ := kv
    by_cases hk : k' = k
    · subst hk
      rw [mget, if_pos rfl] at h
      injection h with h
      subst h
      exact List.mem_cons_self _ _
    · rw [mget, if_neg hk] at h
      exact List.mem_cons_of_mem _ (ih h)

theorem mget_mset {α : Type} (m : List (IPos × α)) (a k : IPos) (v : α) :
    mget (mset m a v) k = if k = a then some v else mget m k := by
  induction m with
  | nil =>
    simp only [mset, mget]
    by_cases hk : k = a
    · rw [if_pos hk.symm, if_pos hk]
    · rw [if_neg (fun h => hk h.symm), if_neg hk]
  | cons kv rest ih =>
    obtain ⟨k', v'⟩ := kv
    by_cases hka : k' = a
    · subst hka
      by_cases hk : k = k'
      · subst hk
        rw [mset, if_pos rfl, mget, if_pos rfl, if_pos rfl]
      · rw [mset, if_pos rfl, mget, if_neg (fun h => hk h.symm), if_neg hk,
          mget, if_neg (fun h => hk h.symm)]
    · by_cases hkk : k' = k
      · subst hkk
        rw [mset, if_neg hka, mget, if_pos rfl, if_neg hka, mget, if_pos rfl]
      · rw [mset, if_neg hka, mget, if_neg hkk, ih]
        by_cases hk : k = a
        · rw [if_pos hk, if_pos hk]
        · rw [if_neg hk, if_neg hk, mget, if_neg hkk]

theorem mem_foldl_sdel_iff {keys : List IPos} :
    ∀ {l : List IPos} {x : IPos}, x ∈ keys.foldl sdel l ↔ x ∈ l ∧ x ∉ keys := by
  induction keys with
  | nil => intro l x; simp
  | cons a rest ih =>
    intro l x
    rw [List.foldl_cons, ih, mem_sdel]
    constructor
    · rintro ⟨⟨hl, hne⟩, hr⟩
      exact ⟨hl, by simp [hne, hr]⟩
    · rintro ⟨hl, hk⟩
      simp only [List.mem_cons, not_or] at hk
      exact ⟨⟨hl, hk.1⟩, hk.2⟩

theorem mhas_mono_mset {α : Type} {m : List (IPos × α)} {k : IPos} (a : IPos) (v : α)
    (h : mhas m k = true) : mhas (mset m a v) k = true := by
  unfold mhas at h ⊢
  rw [mget_mset]
  split <;> simp_all

theorem mhas_mset_self {α : Type} (m : List (IPos × α)) (a : IPos) (v : α) :
    mhas (mset m a v) a = true := by
  unfold mhas
  rw [mget_mset, if_pos rfl]
  rfl

theorem cleanup_km_fresh (t : ℤ) (st : V1.NavState) :
    ∀ k e, mget (V1.cleanupKnowledgeMap t st).knowledgeMap k = some e →
      t - e.timestamp ≤ 60000 := by
  unfold V1.cleanupKnowledgeMap
  intro k e h
  by_cases hk : k ∈ (st.knowledgeMap.filter
      (fun kv => t - kv.2.timestamp > 60000)).map Prod.fst
  · rw [mget_foldl_mdel_mem hk] at h
    exact absurd h (by simp)
  · rw [mget_foldl_mdel_not_mem hk] at h
    by_contra hfresh
    push_neg at hfresh
    exact hk (List.mem_map.2 ⟨(k, e), List.mem_filter.2 ⟨mget_mem h, by simpa using hfresh⟩, rfl⟩)

theorem processBlock_fresh (now : ℤ) (b : Block) {st : V1.NavState}
    (h : ∀ k e, mget st.knowledgeMap k = some e → now - e.timestamp ≤ 60000) :
    ∀ k e, mget (V1.processBlock now st b).knowledgeMap k = some e →
      now - e.timestamp ≤ 60000 := by
  unfold V1.processBlock V1.updateExploredBoundary
  intro k e
  by_cases h1 : V1.isBlockObstacle b
  · by_cases h2 : lowerIncl b.type "fence"
    · simp only [h1, h2, if_true]
      rw [mget_mset]
      split
      · rintro ⟨rfl⟩; simp
      · rw [mget_mset]
        split
        · rintro ⟨rfl⟩; simp
        · exact h k e
    · simp only [h1, h2, if_true, Bool.false_eq_true, if_false]
      rw [mget_mset]
      split
      · rintro ⟨rfl⟩; simp
      · exact h k e
  · by_cases h3 : V1.isBlockSafe b.type
    · simp only [h1, h3, Bool.false_eq_true, if_false, if_true]
      rw [mget_mset]
      split
      · rintro ⟨rfl⟩; simp
      · exact h k e
    · simp only [h1, h3, Bool.false_eq_true, if_false]
      rw [mget_mset]
      split
      · rintro ⟨rfl⟩; simp
      · exact h k e

theorem foldl_processBlock_fresh (now : ℤ) (blocks : List Block) :
    ∀ {st : V1.NavState},
    (∀ k e, mget st.knowledgeMap k = some e → now - e.timestamp ≤ 60000) →
    ∀ k e, mget ((blocks.foldl (V1.processBlock now) st)).knowledgeMap k = some e →
      now - e.timestamp ≤ 60000 := by
  induction blocks with
  | nil => intro st h; exact h
  | cons b rest ih => intro st h; exact ih (processBlock_fresh now b h)

theorem cleanup_backed (t : ℤ) {st : V1.NavState}
    (hO : ∀ k, k ∈ st.obstacleMap → mhas st.knowledgeMap k = true)
    (hS : ∀ k, k ∈ st.safeAreas → mhas st.knowledgeMap k = true) :
    (∀ k, k ∈ (V1.cleanupKnowledgeMap t st).obstacleMap →
        mhas (V1.cleanupKnowledgeMap t st).knowledgeMap k = true) ∧
    (∀ k, k ∈ (V1.cleanupKnowledgeMap t st).safeAreas →
        mhas (V1.cleanupKnowledgeMap t st).knowledgeMap k = true) := by
  unfold V1.cleanupKnowledgeMap
  constructor <;> intro k hk <;>
    [have hb := hO k (mem_foldl_sdel_iff.1 hk).1;
     have hb := hS k (mem_foldl_sdel_iff.1 hk).1] <;>
    have hnk := (mem_foldl_sdel_iff.1 hk).2 <;>
    unfold mhas at hb ⊢ <;>
    rw [mget_foldl_mdel_not_mem hnk] <;> exact hb

theorem processBlock_backed (now : ℤ) (b : Block) {st : V1.NavState}
    (hO : ∀ k, k ∈ st.obstacleMap → mhas st.knowledgeMap k = true)
    (hS : ∀ k, k ∈ st.safeAreas → mhas st.knowledgeMap k = true) :
    (∀ k, k ∈ (V1.processBlock now st b).obstacleMap →
        mhas (V1.processBlock now st b).knowledgeMap k = true) ∧
    (∀ k, k ∈ (V1.processBlock now st b).safeAreas →
        mhas (V1.processBlock now st b).knowledgeMap k = true) := by
  unfold V1.processBlock V1.updateExploredBoundary
  by_cases h1 : V1.isBlockObstacle b
  · by_cases h2 : lowerIncl b.type "fence"
    · simp only [h1, h2, if_true]
      constructor <;> intro k hk
      · rcases mem_sadd.1 hk with hk' | rfl
        · rcases mem_sadd.1 hk' with hk'' | rfl
          · exact mhas_mono_mset _ _ (mhas_mono_mset _ _ (hO k hk''))
          · exact mhas_mono_mset _ _ (mhas_mset_self _ _ _)
        · exact mhas_mset_self _ _ _
      · exact mhas_mono_mset _ _ (mhas_mono_mset _ _
          (hS k (mem_sdel.1 (mem_sdel.1 hk).1).1))
    · simp only [h1, h2, if_true, Bool.false_eq_true, if_false]
      constructor <;> intro k hk
      · rcases mem_sadd.1 hk with hk' | rfl
        · exact mhas_mono_mset _ _ (hO k hk')
        · exact mhas_mset_self _ _ _
      · exact mhas_mono_mset _ _ (hS k (mem_sdel.1 hk).1)
  · by_cases h3 : V1.isBlockSafe b.type
    · simp only [h1, h3, Bool.false_eq_true, if_false, if_true]
      constructor <;> intro k hk
      · exact mhas_mono_mset _ _ (hO k (mem_sdel.1 hk).1)
      · rcases mem_sadd.1 hk with hk' | rfl
        · exact mhas_mono_mset _ _ (hS k hk')
        · exact mhas_mset_self _ _ _
    · simp only [h1, h3, Bool.false_eq_true, if_false]
      constructor <;> intro k hk
      · exact mhas_mono_mset _ _ (hO k hk)
      · exact mhas_mono_mset _ _ (hS k hk)

theorem foldl_processBlock_backed (now : ℤ) (blocks : List Block) :
    ∀ {st : V1.NavState},
    (∀ k, k ∈ st.obstacleMap → mhas st.knowledgeMap k = true) →
    (∀ k, k ∈ st.safeAreas → mhas st.knowledgeMap k = true) →
    (∀ k, k ∈ (blocks.foldl (V1.processBlock now) st).obstacleMap →
        mhas (blocks.foldl (V1.processBlock now) st).knowledgeMap k = true) ∧
    (∀ k, k ∈ (blocks.foldl (V1.processBlock now) st).safeAreas →
        mhas (blocks.foldl (V1.processBlock now) st).knowledgeMap k = true) := by
  induction blocks with
  | nil => intro st hO hS; exact ⟨hO, hS⟩
  | cons b rest ih =>
    intro st hO hS
    have hb := processBlock_backed now b hO hS
    exact ih hb.1 hb.2

theorem reachable_backed {s : V1.NavState} (h : Reachable s) :
    (∀ k, k ∈ s.obstacleMap → mhas s.knowledgeMap k = true) ∧
    (∀ k, k ∈ s.safeAreas → mhas s.knowledgeMap k = true) := by
  induction h with
  | init => exact ⟨fun k hk => absurd hk (List.not_mem_nil k),
      fun k hk => absurd hk (List.not_mem_nil k)⟩
  | update blocks now _ ih =>
    have hc := cleanup_backed now ih.1 ih.2
    exact foldl_processBlock_backed now blocks hc.1 hc.2
  | cleanup now _ ih => exact cleanup_backed now ih.1 ih.2

/-- C4 (corrected): after any merge call (`updateKnowledgeMap`) at time
`t` on a reachable navigator state, every Knowledge Map entry strictly
older than `knowledgeMaxAge` (60000 ms) is gone — no surviving entry is
stale — and every Obstacle Set and Safe-Area Set key is backed by a
surviving (hence fresh) Knowledge Map entry.  The Explored Frontier,
however, is never purged (see the counterexample). -/
theorem merge_evicts_stale (blocks : List Block) (t : ℤ) {s : V1.NavState}
    (h : Reachable s) :
    (∀ k e, mget (V1.updateKnowledgeMap blocks t s).knowledgeMap k = some e →
        t - e.timestamp ≤ 60000) ∧
    (∀ k, k ∈ (V1.updateKnowledgeMap blocks t s).obstacleMap →
        mhas (V1.updateKnowledgeMap blocks t s).knowledgeMap k = true) ∧
    (∀ k, k ∈ (V1.updateKnowledgeMap blocks t s).safeAreas →
        mhas (V1.updateKnowledgeMap blocks t s).knowledgeMap k = true) := by
  have hb := reachable_backed h
  have hc := cleanup_backed t hb.1 hb.2
  have hf := foldl_processBlock_backed t blocks hc.1 hc.2
  exact ⟨foldl_processBlock_fresh t blocks (cleanup_km_fresh t s),
    hf.1, hf.2⟩

/-- Witness for C4 (amended form): the guarantees instantiated after a
concrete merge on a reachable state. -/
theorem merge_evicts_stale_witness :
    (∀ k e, mget (V1.updateKnowledgeMap [⟨"stone", ⟨0, 0, 0⟩⟩] 70000
        (V1.updateKnowledgeMap [] 1 V1.initState)).knowledgeMap k = some e →
        (70000 : ℤ) - e.timestamp ≤ 60000) ∧
    (∀ k, k ∈ (V1.updateKnowledgeMap [⟨"stone", ⟨0, 0, 0⟩⟩] 70000
        (V1.updateKnowledgeMap [] 1 V1.initState)).obstacleMap →
        mhas (V1.updateKnowledgeMap [⟨"stone", ⟨0, 0, 0⟩⟩] 70000
          (V1.updateKnowledgeMap [] 1 V1.initState)).knowledgeMap k = true) ∧
    (∀ k, k ∈ (V1.updateKnowledgeMap [⟨"stone", ⟨0, 0, 0⟩⟩] 70000
        (V1.updateKnowledgeMap [] 1 V1.initState)).safeAreas →
        mhas (V1.updateKnowledgeMap [⟨"stone", ⟨0, 0, 0⟩⟩] 70000
          (V1.updateKnowledgeMap [] 1 V1.initState)).knowledgeMap k = true) :=
  merge_evicts_stale [⟨"stone", ⟨0, 0, 0⟩⟩] 70000
    (Reachable.update [] 1 Reachable.init)

/-- Counterexample for C4 as stated: a state carrying an Explored Frontier
entry of timestamp 0 still carries it — strictly older than
`knowledgeMaxAge` — after a merge at time 100000, while the Knowledge Map
itself holds no entry for the key; the frontier is never purged. -/
theorem stale_frontier_retained :
    mget (V1.updateKnowledgeMap [] 100000 staleBoundaryState).exploredBoundary
      ⟨0, 0, 0⟩ = some ⟨⟨0, 0, 0⟩, 0⟩ ∧
    ((100000 : ℤ) - 0 > 60000) ∧
    mget (V1.updateKnowledgeMap [] 100000 staleBoundaryState).knowledgeMap
      ⟨0, 0, 0⟩ = none := by
  with_unfolding_all decide

/-! Claim C5: soundness and completeness of stuck detection against the
movement thresholds, for both the counter-based `isStuck` pipeline (V1)
and the log-window `isReallyStuck` (V2). -/

theorem updatePositionTracking_lastPosition (p : Pos) (st : V1.NavState) :
    (V1.updatePositionTracking p st).lastPosition = some p := by
  unfold V1.updatePositionTracking
  cases h : st.lastPosition <;> simp [h]

theorem updatePositionTracking_close (p q : Pos) (st : V1.NavState)
    (hq : st.lastPosition = some q) (h : V1.distance2Dsq p q < 1/4) :
    (V1.updatePositionTracking p st).stuckCounter = st.stuckCounter + 1 := by
  unfold V1.updatePositionTracking
  rw [hq]
  simp only [one_div] at h
  simp [h]

theorem updatePositionTracking_far (p q : Pos) (st : V1.NavState)
    (hq : st.lastPosition = some q) (h : V1.distance2Dsq p q > 1/4) :
    (V1.updatePositionTracking p st).stuckCounter = 0 := by
  unfold V1.updatePositionTracking
  rw [hq]
  have hlt : ¬(V1.distance2Dsq p q < 4⁻¹) := by
    rw [← one_div]
    linarith
  simp [hlt]

theorem trackFold_close_chain :
    ∀ (stream : List Pos) (st : V1.NavState) (q : Pos), st.lastPosition = some q →
    (∀ p ∈ q :: stream, ∀ r ∈ q :: stream, V1.distance2Dsq p r ≤ 1/100) →
    (trackFold stream st).stuckCounter = st.stuckCounter + stream.length := by
  intro stream
  induction stream with
  | nil => intro st q _ _; simp [trackFold]
  | cons s rest ih =>
    intro st q hq hcl
    have hclose : V1.distance2Dsq s q < 1/4 := by
      have := hcl s (by simp) q (by simp)
      linarith
    have hstep : trackFold (s :: rest) st =
        trackFold rest (V1.updatePositionTracking s st) := rfl
    rw [hstep, ih (V1.updatePositionTracking s st) s
        (updatePositionTracking_lastPosition s st)
        (fun p hp r hr =>
          hcl p (List.mem_cons_of_mem q hp) r (List.mem_cons_of_mem q hr)),
      updatePositionTracking_close s q st hq hclose]
    simp
    omega

theorem consecFar2D_head {q r : Pos} {rest : List Pos}
    (h : consecFar2D (q :: r :: rest) = true) :
    V1.distance2Dsq r q > 1/4 ∧ consecFar2D (r :: rest) = true := by
  rw [consecFar2D, Bool.and_eq_true, decide_eq_true_eq] at h
  exact h

theorem trackFold_far :
    ∀ (rest : List Pos) (q : Pos) (st : V1.NavState), rest ≠ [] →
      consecFar2D (q :: rest) = true →
      (trackFold (q :: rest) st).stuckCounter = 0 := by
  intro rest
  induction rest with
  | nil => intro q st h; exact absurd rfl h
  | cons r rest' ih =>
    intro q st _ hfar
    obtain ⟨hqr, htail⟩ := consecFar2D_head hfar
    cases rest' with
    | nil =>
      show (V1.updatePositionTracking r (V1.updatePositionTracking q st)).stuckCounter = 0
      exact updatePositionTracking_far r q _
        (updatePositionTracking_lastPosition q st) hqr
    | cons r2 rest'' =>
      show (trackFold (r :: r2 :: rest'') (V1.updatePositionTracking q st)).stuckCounter = 0
      exact ih r (V1.updatePositionTracking q st) (by simp) htail

theorem consecFar3D_tail {x : Pos × ℤ} {l : List (Pos × ℤ)}
    (h : consecFar3D (x :: l) = true) : consecFar3D l = true := by
  cases l with
  | nil => rfl
  | cons y rest =>
    rw [consecFar3D, Bool.and_eq_true] at h
    exact h.2

theorem consecFar3D_head3 {a b c : Pos × ℤ} (h : consecFar3D [a, b, c] = true) :
    V1.distance3Dsq a.1 b.1 > 9/100 ∧ V1.distance3Dsq b.1 c.1 > 9/100 := by
  rw [consecFar3D, Bool.and_eq_true, decide_eq_true_eq] at h
  have h2 := h.2
  rw [consecFar3D, Bool.and_eq_true, decide_eq_true_eq] at h2
  exact ⟨h.1, h2.1⟩

theorem consecFar3D_drop (n : ℕ) :
    ∀ l, consecFar3D l = true → consecFar3D (l.drop n) = true := by
  induction n with
  | zero => intro l h; exact h
  | succ n ih =>
    intro l h
    cases l with
    | nil => exact h
    | cons x rest => exact ih rest (consecFar3D_tail h)

/-- C5: stuck detection is sound and complete against the movement
thresholds.  V1: a stream of at least a full window (6 samples) whose
samples all lie within 0.1 units of each other (squared 2D distance at
most 1/100) drives `isStuck` to true through `updatePositionTracking`,
and a stream of at least two samples whose every per-tick movement exceeds
the 0.5 threshold drives it to false.  V2: a log window of three samples
within 0.1 units makes `isReallyStuck` true, and per-tick movements
exceeding the 0.3 threshold make it false (under the float-sqrt bounds
those distances force). -/
theorem stuck_detection_sound_complete :
    (∀ (st : V1.NavState) (stream : List Pos) (c : Pos),
       6 ≤ stream.length →
       (∀ p ∈ stream, ∀ r ∈ stream, V1.distance2Dsq p r ≤ 1/100) →
       V1.isStuck (trackFold stream st) c = true) ∧
    (∀ (st : V1.NavState) (stream : List Pos) (c : Pos),
       2 ≤ stream.length → consecFar2D stream = true →
       V1.isStuck (trackFold stream st) c = false) ∧
    (∀ (env : V1.Env) (st2 : V2.NavState2),
       3 ≤ st2.lastPositionLog.length →
       (∀ p ∈ st2.lastPositionLog, ∀ r ∈ st2.lastPositionLog,
           V1.distance3Dsq p.1 r.1 ≤ 1/100) →
       (∀ q : ℚ, 0 ≤ q → q ≤ 1/100 → env.sqrtq q ≤ 1/10) →
       V2.isReallyStuck env st2 = true) ∧
    (∀ (env : V1.Env) (st2 : V2.NavState2),
       3 ≤ st2.lastPositionLog.length →
       consecFar3D st2.lastPositionLog = true →
       (∀ q : ℚ, 9/100 < q → 3/10 < env.sqrtq q) →
       V2.isReallyStuck env st2 = false) := by
  refine ⟨?_, ?_, ?_, ?_⟩
  · intro st stream c hlen hcl
    cases stream with
    | nil => simp at hlen
    | cons s0 rest =>
      have hc : (trackFold (s0 :: rest) st).stuckCounter =
          (V1.updatePositionTracking s0 st).stuckCounter + rest.length :=
        trackFold_close_chain rest _ s0 (updatePositionTracking_lastPosition s0 st) hcl
      unfold V1.isStuck
      rw [hc]
      simp only [decide_eq_true_eq]
      have : 5 ≤ rest.length := by
        simp only [List.length_cons] at hlen
        omega
      omega
  · intro st stream c hlen hfar
    cases stream with
    | nil => simp at hlen
    | cons q rest =>
      cases rest with
      | nil => simp at hlen
      | cons r rest' =>
        have h0 : (trackFold (q :: r :: rest') st).stuckCounter = 0 :=
          trackFold_far (r :: rest') q st (by simp) hfar
        unfold V1.isStuck
        rw [h0]
        simp
  · intro env st2 hlen hcl hs
    unfold V2.isReallyStuck
    rw [if_neg (by omega)]
    have hlen3 : (st2.lastPositionLog.drop (st2.lastPositionLog.length - 3)).length = 3 := by
      rw [List.length_drop]
      omega
    obtain ⟨a, b, c, habc⟩ := List.length_eq_three.1 hlen3
    have ha : a ∈ st2.lastPositionLog :=
      List.drop_subset _ _ (by rw [habc]; simp)
    have hb : b ∈ st2.lastPositionLog :=
      List.drop_subset _ _ (by rw [habc]; simp)
    have hc : c ∈ st2.lastPositionLog :=
      List.drop_subset _ _ (by rw [habc]; simp)
    have h1 : env.sqrtq (V1.distance3Dsq a.1 b.1) ≤ 1/10 :=
      hs _ (by unfold V1.distance3Dsq; positivity) (hcl a ha b hb)
    have h2 : env.sqrtq (V1.distance3Dsq b.1 c.1) ≤ 1/10 :=
      hs _ (by unfold V1.distance3Dsq; positivity) (hcl b hb c hc)
    rw [habc]
    simp only [List.length_cons, List.length_nil, List.tail_cons, List.zip_cons_cons,
      List.zip_nil_right, List.map_cons, List.map_nil, List.sum_cons, List.sum_nil,
      decide_eq_true_eq]
    push_cast
    linarith
  · intro env st2 hlen hfar hs
    unfold V2.isReallyStuck
    rw [if_neg (by omega)]
    have hlen3 : (st2.lastPositionLog.drop (st2.lastPositionLog.length - 3)).length = 3 := by
      rw [List.length_drop]
      omega
    obtain ⟨a, b, c, habc⟩ := List.length_eq_three.1 hlen3
    have hdrop := consecFar3D_drop (st2.lastPositionLog.length - 3) _ hfar
    rw [habc] at hdrop
    have hab : V1.distance3Dsq a.1 b.1 > 9/100 :=
      (consecFar3D_head3 hdrop).1
    have hbc : V1.distance3Dsq b.1 c.1 > 9/100 :=
      (consecFar3D_head3 hdrop).2
    have h1 : 3/10 < env.sqrtq (V1.distance3Dsq a.1 b.1) := hs _ hab
    have h2 : 3/10 < env.sqrtq (V1.distance3Dsq b.1 c.1) := hs _ hbc
    rw [habc]
    simp only [List.length_cons, List.length_nil, List.tail_cons, List.zip_cons_cons,
      List.zip_nil_right, List.map_cons, List.map_nil, List.sum_cons, List.sum_nil,
      decide_eq_false_iff_not, not_lt]
    push_cast
    linarith

/-- Witness for C5: all four directions at concrete streams, logs and
square-root oracles. -/
theorem stuck_detection_witness :
    V1.isStuck (trackFold [⟨0,0,0⟩, ⟨0,0,0⟩, ⟨0,0,0⟩, ⟨0,0,0⟩, ⟨0,0,0⟩, ⟨0,0,0⟩]
        V1.initState) ⟨0,0,0⟩ = true ∧
    V1.isStuck (trackFold [⟨0,0,0⟩, ⟨1,0,0⟩] V1.initState) ⟨0,0,0⟩ = false ∧
    V2.isReallyStuck envSqrt0 clusterLogState = true ∧
    V2.isReallyStuck envSqrt1 spreadLogState = false :=
  ⟨stuck_detection_sound_complete.1 V1.initState _ _ (by decide)
      (by with_unfolding_all decide),
   stuck_detection_sound_complete.2.1 V1.initState _ _ (by decide)
      (by with_unfolding_all decide),
   stuck_detection_sound_complete.2.2.1 envSqrt0 clusterLogState (by decide)
      (by with_unfolding_all decide) (fun q _ _ => by norm_num [envSqrt0, envW1]),
   stuck_detection_sound_complete.2.2.2 envSqrt1 spreadLogState (by decide)
      (by with_unfolding_all decide) (fun q _ => by norm_num [envSqrt1, envW1])⟩

/-! Claim C6: the submerged emergency behavior.  The submerged check does
preempt the Planned Path, and the dry-land target is preferred; but when
no dry cell is known the code first tries a horizontal non-water
direction, and only ascends vertically when even that fails — the claim
as stated skips that middle stage. -/

/-- C6 (corrected): under the fluid-as-impassable policy of the V2
navigator, if any of the agent feet/body/head cells is classified as
water, `exploreToTarget` returns the emergency exit move instead of
continuing the in-progress Planned Path: toward the nearest known dry
supported cell when one exists; otherwise toward the first not-known-water
candidate over 8 compass directions at ranges 2 to 5; and only when both
fail, a vertical-ascent move of +3. -/
theorem submerged_priority (env : V1.Env) (st : V2.NavState2) (targetPos : Pos)
    (h : V2.isCurrentlyInWater st env.botPos = true) :
    V2.exploreToTarget2 env st targetPos = (st, V2.emergencyExitWater st env.botPos) ∧
    (V2.emergencyExitWater st env.botPos).1 = env.botPos ∧
    ((∃ d, V2.findNearestDryLand st env.botPos = some d ∧
        (V2.emergencyExitWater st env.botPos).2 = d) ∨
     (V2.findNearestDryLand st env.botPos = none ∧
      ((∃ c, V2.findNonWaterDirection st env.botPos = some c ∧
          (V2.emergencyExitWater st env.botPos).2 = c) ∨
       (V2.findNonWaterDirection st env.botPos = none ∧
        (V2.emergencyExitWater st env.botPos).2 =
          ⟨env.botPos.x, env.botPos.y + 3, env.botPos.z⟩)))) := by
  refine ⟨?_, ?_, ?_⟩
  · unfold V2.exploreToTarget2
    simp [h]
  · unfold V2.emergencyExitWater
    cases V2.findNearestDryLand st env.botPos with
    | some d => rfl
    | none => cases V2.findNonWaterDirection st env.botPos <;> rfl
  · unfold V2.emergencyExitWater
    cases hd : V2.findNearestDryLand st env.botPos with
    | some d => exact Or.inl ⟨d, rfl, rfl⟩
    | none =>
      refine Or.inr ⟨rfl, ?_⟩
      cases hc : V2.findNonWaterDirection st env.botPos with
      | some c => exact Or.inl ⟨c, rfl, rfl⟩
      | none => exact Or.inr ⟨rfl, rfl⟩

/-- Witness for C6 (amended form): the concrete submerged scenario takes
the emergency branch. -/
theorem submerged_priority_witness :
    V2.exploreToTarget2 envW2 submergedState ⟨20, 0, 0⟩ =
      (submergedState, V2.emergencyExitWater submergedState envW2.botPos) :=
  (submerged_priority envW2 submergedState ⟨20, 0, 0⟩
    (by with_unfolding_all decide)).1

/-- Counterexample for C6 as stated: submerged with no known dry cell, the
returned emergency move is the horizontal non-water candidate two cells
east, not a vertical ascent — the claim promises a vertical-ascent
fallback whenever no dry cell is known. -/
theorem submerged_no_vertical_fallback :
    V2.isCurrentlyInWater submergedState envW2.botPos = true ∧
    V2.findNearestDryLand submergedState envW2.botPos = none ∧
    V2.exploreToTarget2 envW2 submergedState ⟨20, 0, 0⟩ =
      (submergedState, (⟨1/2, 1/2, 1/2⟩, ⟨5/2, 1/2, 1/2⟩)) ∧
    ((5/2 : ℚ), (1/2 : ℚ)) ≠ ((1/2 : ℚ), (1/2 : ℚ) + 3) := by
  with_unfolding_all decide

/-! Claim C7: the near-target fallback of the Sub-Target Selector. -/

/-- C7: with an empty Knowledge Map (hence empty frontier and safe-area
candidate pools), the agent at (0,0,0) and the final target at (20,0,0),
`findBestIntermediateTarget` returns the near-target fallback point 3
units along +X at the current height: (3, 0, 0).  The hypothesis pins the
float square root at the one value the direction normalization reads
(`Math.sqrt 400 = 20`, exact in floats). -/
theorem near_target_fallback (env : V1.Env) (h : env.sqrtq 400 = 20) :
    V1.findBestIntermediateTarget env V1.initState ⟨0, 0, 0⟩ ⟨20, 0, 0⟩ = ⟨3, 0, 0⟩ := by
  have hdir : V1.getDirection2D env ⟨0, 0, 0⟩ ⟨20, 0, 0⟩ = (1, 0) := by
    unfold V1.getDirection2D
    have h400 : ((⟨20, 0, 0⟩ : Pos).x - (⟨0, 0, 0⟩ : Pos).x) ^ 2 +
        ((⟨20, 0, 0⟩ : Pos).z - (⟨0, 0, 0⟩ : Pos).z) ^ 2 = (400 : ℚ) := by
      norm_num
    simp only [h400, h]
    norm_num
  have hknown : V1.isPositionInKnownArea V1.initState ⟨20, 0, 0⟩ = false := by
    with_unfolding_all decide
  unfold V1.findBestIntermediateTarget
  rw [hknown]
  simp only [Bool.false_eq_true, if_false, V1.initState, List.map_nil,
    List.filterMap_nil, List.append_nil, V1.sortLe, hdir, V1.generateNearTarget]
  simp [Pos.mk.injEq]

/-- Witness for C7: the fallback point at a square root instantiated by
the witness table. -/
theorem near_target_fallback_witness :
    V1.findBestIntermediateTarget envW1 V1.initState ⟨0, 0, 0⟩ ⟨20, 0, 0⟩ = ⟨3, 0, 0⟩ :=
  near_target_fallback envW1 (by with_unfolding_all decide)

/-! Claim C8: the neighbor enumeration of the grid search is one fixed
deterministic sequence — there is no randomization. -/

/-- C8 (corrected): `getKnowledgeBasedNeighbors` produces the 8-connected
neighbors of every expanded cell in one fixed deterministic order — east,
west, south, north, then the four diagonals of the direction table — the
same for every cell and every run; no randomization is involved. -/
theorem neighbors_fixed_order (gridPos : IPos) (gs : ℚ) :
    V1.getKnowledgeBasedNeighbors gridPos gs =
      [⟨gridPos.x + 1, gridPos.y, gridPos.z⟩, ⟨gridPos.x - 1, gridPos.y, gridPos.z⟩,
       ⟨gridPos.x, gridPos.y, gridPos.z + 1⟩, ⟨gridPos.x, gridPos.y, gridPos.z - 1⟩,
       ⟨gridPos.x + 1, gridPos.y, gridPos.z + 1⟩, ⟨gridPos.x - 1, gridPos.y, gridPos.z - 1⟩,
       ⟨gridPos.x + 1, gridPos.y, gridPos.z - 1⟩, ⟨gridPos.x - 1, gridPos.y, gridPos.z + 1⟩] := by
  simp [V1.getKnowledgeBasedNeighbors, V1.neighborDirections, Int.sub_eq_add_neg]

/-- Counterexample for C8 as stated: the neighbor enumeration offsets of
two different expanded cells coincide, and equal the fixed direction
table — the order is not randomized per expansion. -/
theorem neighbors_not_randomized :
    neighborOffsets ⟨0, 0, 0⟩ = neighborOffsets ⟨7, 1, -4⟩ ∧
    neighborOffsets ⟨0, 0, 0⟩ =
      [(1, 0), (-1, 0), (0, 1), (0, -1), (1, 1), (-1, -1), (1, -1), (-1, 1)] := by
  with_unfolding_all decide

/-! Claim C9: the obstruction tolerance of the relaxed line-of-sight test.
`adjustScanParameters` stores `maxObstructionsTolerated`, but the march
hardcodes `maxObstructions = 2` and never reads the stored value. -/

theorem losLoop_false_iff (step : ℚ) (blockAt : IPos → Option Perception.WorldBlock)
    (direction : Pos) (maxDistance : ℚ) (target : IPos) :
    ∀ (fuel : ℕ) (cp : Pos) (dist : ℚ) (c : ℕ), c ≤ 2 →
      (Perception.losLoop step blockAt direction maxDistance target fuel cp dist c = false ↔
       2 < c + Perception.losCount step blockAt direction maxDistance target fuel cp dist) := by
  intro fuel
  induction fuel with
  | zero =>
    intro cp dist c hc
    rw [Perception.losLoop, Perception.losCount]
    simp
    omega
  | succ fuel ih =>
    intro cp dist c hc
    rw [Perception.losLoop, Perception.losCount]
    by_cases hguard : dist < maxDistance - 1
    · simp only [if_pos hguard]
      by_cases h1 : dist + step < 1
      · simp only [if_pos h1]
        exact ih _ _ c hc
      · simp only [if_neg h1]
        by_cases h2 : (⟨⌊cp.x + direction.x * step⌋, ⌊cp.y + direction.y * step⌋,
            ⌊cp.z + direction.z * step⌋⟩ : IPos) = target
        · simp only [if_pos h2]
          exact ih _ _ c hc
        · simp only [if_neg h2]
          by_cases h3 : Perception.isBlockObstructingRelaxed
              (blockAt ⟨⌊cp.x + direction.x * step⌋, ⌊cp.y + direction.y * step⌋,
                ⌊cp.z + direction.z * step⌋⟩)
              ⟨cp.x + direction.x * step, cp.y + direction.y * step,
                cp.z + direction.z * step⟩
              ⟨⌊cp.x + direction.x * step⌋, ⌊cp.y + direction.y * step⌋,
                ⌊cp.z + direction.z * step⌋⟩ = true
          · simp only [h3, if_true]
            by_cases h4 : c + 1 > 2
            · simp only [if_pos h4]
              constructor
              · intro _; omega
              · intro _; trivial
            · simp only [if_neg h4]
              rw [ih _ _ (c + 1) (by omega)]
              omega
          · simp only [h3, Bool.false_eq_true, if_false]
            exact ih _ _ c hc
    · simp only [if_neg hguard]
      simp
      omega

/-- C9 (corrected): the scan-parameter setter stores
`maxObstructionsTolerated`, but the relaxed line-of-sight test never reads
it: the march result is unchanged by the setting, and a ray is declared
blocked exactly when strictly more than 2 obstructing samples are
encountered along it — the tolerance is fixed at 2, not configurable. -/
theorem tolerance_fixed_at_two (n : ℚ) (st : Perception.PerceptionState)
    (blockAt : IPos → Option Perception.WorldBlock) (startPos direction : Pos)
    (maxDistance : ℚ) (target : IPos) :
    (Perception.checkLineOfSightRelaxed
        (Perception.adjustScanParameters ⟨none, none, none, some n, none⟩ st).visionConfig
        blockAt startPos direction maxDistance target =
      Perception.checkLineOfSightRelaxed st.visionConfig blockAt startPos direction
        maxDistance target) ∧
    ((Perception.adjustScanParameters ⟨none, none, none, some n, none⟩
        st).visionConfig.maxObstructionsTolerated = some n) ∧
    (Perception.checkLineOfSightRelaxed st.visionConfig blockAt startPos direction
        maxDistance target = false ↔
      2 < Perception.rayObstructionCount st.visionConfig blockAt startPos direction
        maxDistance target) := by
  refine ⟨rfl, rfl, ?_⟩
  unfold Perception.checkLineOfSightRelaxed Perception.rayObstructionCount
  simpa using losLoop_false_iff st.visionConfig.lineOfSightStep blockAt direction
    maxDistance target (Perception.losFuel maxDistance st.visionConfig.lineOfSightStep)
    startPos 0 0 (by omega)

/-- Witness for C9 (amended form): the setter-invariance instantiated at
the concrete tolerance-0 configuration and stone ray. -/
theorem tolerance_fixed_at_two_witness :
    Perception.checkLineOfSightRelaxed
        (Perception.adjustScanParameters ⟨none, none, none, some 0, none⟩
          Perception.initPerception).visionConfig
        blockAtStone ⟨0, 1/2, 1/2⟩ ⟨1, 0, 0⟩ 3 ⟨5, 0, 0⟩ =
      Perception.checkLineOfSightRelaxed Perception.initPerception.visionConfig
        blockAtStone ⟨0, 1/2, 1/2⟩ ⟨1, 0, 0⟩ 3 ⟨5, 0, 0⟩ :=
  (tolerance_fixed_at_two 0 Perception.initPerception blockAtStone
    ⟨0, 1/2, 1/2⟩ ⟨1, 0, 0⟩ 3 ⟨5, 0, 0⟩).1

/-- Counterexample for C9 as stated: after setting
`maxObstructionsTolerated` to 0, a ray with exactly 1 obstructing sample
(strictly more than 0) is still not declared blocked — the stored setting
has no effect. -/
theorem tolerance_setting_ignored :
    cfgTol0.maxObstructionsTolerated = some 0 ∧
    Perception.rayObstructionCount cfgTol0 blockAtStone
      ⟨0, 1/2, 1/2⟩ ⟨1, 0, 0⟩ 3 ⟨5, 0, 0⟩ = 1 ∧
    Perception.checkLineOfSightRelaxed cfgTol0 blockAtStone
      ⟨0, 1/2, 1/2⟩ ⟨1, 0, 0⟩ 3 ⟨5, 0, 0⟩ = true := by
  with_unfolding_all decide

/-! Claim C10: `exploreToTarget` always returns the pair
`[currentPosition, nextStep]`, with the exploratory-movement fallback
chain producing the step when planning and path-following both fail. -/

/-- C10: every call of the V1 `exploreToTarget` returns a two-element
pair whose first component is the current position — never null or
undefined (the embedding returns a pair on every path, mirroring the
source, whose every return statement yields a pair).  When the
path-following stage (`getNextStep` after the preparation pipeline)
produces no step, the result is exactly the exploratory-movement
fallback; and `exploratoryMovement` always produces a step: the
nearest-unexplored-area target when one exists, else a random safe move
when one is found, else the small random jitter around the current
position. -/
theorem explore_total (env : V1.Env) (st : V1.NavState) (targetPos : Pos) :
    ((V1.exploreToTarget env st targetPos).2.1 = env.botPos) ∧
    ((V1.getNextStep env (V1.navPrep env st targetPos) env.botPos).2 = none →
      V1.exploreToTarget env st targetPos =
        ((V1.getNextStep env (V1.navPrep env st targetPos) env.botPos).1,
         V1.exploratoryMovement env
           (V1.getNextStep env (V1.navPrep env st targetPos) env.botPos).1 env.botPos)) ∧
    (∀ (st' : V1.NavState) (cur : Pos),
      (V1.exploratoryMovement env st' cur).1 = cur ∧
      ((∃ t, V1.findNearestUnexploredArea env st' cur = some t ∧
          (V1.exploratoryMovement env st' cur).2 = t) ∨
       (V1.findNearestUnexploredArea env st' cur = none ∧
         ((∃ t, V1.findRandomSafeMovement env st' cur = some t ∧
             (V1.exploratoryMovement env st' cur).2 = t) ∨
          (V1.findRandomSafeMovement env st' cur = none ∧
           (V1.exploratoryMovement env st' cur).2 =
             ⟨cur.x + (env.rnd 20 - 1/2) * (1/2), cur.y,
              cur.z + (env.rnd 21 - 1/2) * (1/2)⟩))))) := by
  have hexp : ∀ (st' : V1.NavState) (cur : Pos),
      (V1.exploratoryMovement env st' cur).1 = cur ∧
      ((∃ t, V1.findNearestUnexploredArea env st' cur = some t ∧
          (V1.exploratoryMovement env st' cur).2 = t) ∨
       (V1.findNearestUnexploredArea env st' cur = none ∧
         ((∃ t, V1.findRandomSafeMovement env st' cur = some t ∧
             (V1.exploratoryMovement env st' cur).2 = t) ∨
          (V1.findRandomSafeMovement env st' cur = none ∧
           (V1.exploratoryMovement env st' cur).2 =
             ⟨cur.x + (env.rnd 20 - 1/2) * (1/2), cur.y,
              cur.z + (env.rnd 21 - 1/2) * (1/2)⟩)))) := by
    intro st' cur
    unfold V1.exploratoryMovement
    cases hn : V1.findNearestUnexploredArea env st' cur with
    | some t => exact ⟨rfl, Or.inl ⟨t, rfl, rfl⟩⟩
    | none =>
      cases hr : V1.findRandomSafeMovement env st' cur with
      | some t => exact ⟨rfl, Or.inr ⟨rfl, Or.inl ⟨t, rfl, rfl⟩⟩⟩
      | none => exact ⟨rfl, Or.inr ⟨rfl, Or.inr ⟨rfl, rfl⟩⟩⟩
  refine ⟨?_, ?_, hexp⟩
  · simp only [V1.exploreToTarget]
    rcases hg : V1.getNextStep env (V1.navPrep env st targetPos) env.botPos with ⟨st2, o⟩
    cases o with
    | some step => rfl
    | none => exact (hexp st2 env.botPos).1
  · intro hnone
    simp only [V1.exploreToTarget]
    rcases hg : V1.getNextStep env (V1.navPrep env st targetPos) env.botPos with ⟨st2, o⟩
    rw [hg] at hnone
    cases o with
    | some step => exact absurd hnone (by simp)
    | none => rfl

/-- Witness for C10: with the obstacle ring state, planning and
path-following fail and the call lands exactly on the
exploratory-movement fallback pair. -/
theorem explore_total_witness :
    V1.exploreToTarget envW1 blockedStateW ⟨20, 0, 1/2⟩ =
      ((V1.getNextStep envW1 (V1.navPrep envW1 blockedStateW ⟨20, 0, 1/2⟩)
          envW1.botPos).1,
       V1.exploratoryMovement envW1
         (V1.getNextStep envW1 (V1.navPrep envW1 blockedStateW ⟨20, 0, 1/2⟩)
           envW1.botPos).1 envW1.botPos) :=
  (explore_total envW1 blockedStateW ⟨20, 0, 1/2⟩).2.1 (by with_unfolding_all decide)

end MineDrone

